import Mathlib

/-!
# The error/warning module of sjasmplus (`sjasm/io_err.cpp`)

A shallow embedding of the diagnostic entry points `Error`, `ErrorInt`, `ErrorOOM`,
`Warning`, `WarningById` and `CliWoption`, of the helpers they call (`initErrorLine`,
`outputErrorLine`, `WarningImpl`, `suppressedById`) and of the warning registry `w_texts`.

* The file-level and program-level variables that the module writes (`IsSkipErrors`,
  `PreviousErrorLine`, `ErrorCount`, `WarningCount`, the `enabled` flags of `w_texts`, the
  `__ERRORS__`/`__WARNINGS__` defines, the listing file, `stderr`, the exit status) form `State`.
* Everything the module only reads (`pass`, `CompiledCurrentLine`, the source positions,
  `eolComment`, the options, ...) forms `Env`; the constants of `sjdefs.h` that the module
  uses but which are declared elsewhere (`LASTPASS`, `LINEMAX2`, `OV_ERROR`, `OV_WARNING`)
  are fields of `Env` as well, so that nothing is assumed about their values.
* C strings are `String`s (no embedded NUL), a nullable `const char*` is an `Option String`.
* An `assert` that fails aborts: the functions that contain one return an `Option`.
-/

namespace Sjasm

/-! ## Data model -/

/-- Error classes: the `EStatus` enumeration used by `Error`. -/
inductive EStatus where
  | ALL
  | EARLY
  | PASS3
  | IF_FIRST
  | SUPPRESS
  | FATAL
  deriving DecidableEq

/-- Warning classes: the `EWStatus` enumeration used by `Warning` and `WarningById`. -/
inductive EWStatus where
  | W_ALL
  | W_EARLY
  | W_PASS3
  deriving DecidableEq

/-- A position in a source file (`TextFilePos`): nullable file name and line number. -/
structure TextFilePos where
  filename : Option String
  line : Int
  deriving DecidableEq

/-- The two fields of `lua_Debug` read by `initErrorLine` after `lua_getinfo(LUA, "Sl", &ar)`. -/
structure LuaFrame where
  short_src : String
  currentline : Int
  deriving DecidableEq

/-- One value of the `messages_map` registry (`struct WarningEntry`). -/
structure WarningEntry where
  enabled : Bool
  txt : String
  help : String
  deriving DecidableEq

/-- What the module reads from the rest of the assembler. `luaStack` lists the frames from
level 1 outwards (level 0 is never asked for) for which `lua_getstack` and `lua_getinfo` both
succeed; the list ends where one of the two calls fails. `LASTPASS`, `LINEMAX2`, `OV_ERROR`
and `OV_WARNING` are the constants of those names. -/
structure Env where
  pass : Int
  LASTPASS : Int
  CompiledCurrentLine : Int
  CurSourcePos : TextFilePos
  DefinitionPos : TextFilePos
  LuaStartPos : TextFilePos
  listmacro : Int
  luaStack : List LuaFrame
  OutputVerbosity : Nat
  OV_ERROR : Nat
  OV_WARNING : Nat
  WarningsAsErrors : Bool
  eolComment : Option String
  bp : String
  LINEMAX2 : Nat
  deriving DecidableEq

/-- What the module writes. `listing` is `none` while `GetListingFile()` is null and otherwise
holds the strings written to the listing file so far; `cerr` holds the strings written to
`stderr`; `exitStatus` is `some n` once `ExitASM(n)` has ended the process. -/
structure State where
  IsSkipErrors : Bool
  PreviousErrorLine : Int
  ErrorCount : Nat
  WarningCount : Nat
  w_texts : List (String × WarningEntry)
  DefineTable : List (String × Nat)
  listing : Option (List String)
  cerr : List String
  exitStatus : Option Int
  deriving DecidableEq

/-! ## The warning registry -/

def W_ABS_LABEL : String := "abs"
def W_NEXT_RAMTOP : String := "zxnramtop"
def W_NOSLOT_RAMTOP : String := "noslotramtop"
def W_DEV_RAMTOP : String := "devramtop"
def W_DISPLACED_ORG : String := "displacedorg"
def W_ORG_PAGE : String := "orgpage"
def W_FWD_REF : String := "fwdref"
def W_LUA_MC_PASS : String := "luamc"
def W_NEX_STACK : String := "nexstack"
def W_NEX_BMP_PAL : String := "nexbmppal"
def W_SNA_48 : String := "sna48"
def W_SNA_128 : String := "sna128"
def W_TRD_EXT_INVALID : String := "trdext"
def W_TRD_EXT_3 : String := "trdext3"
def W_TRD_EXT_B : String := "trdextb"
def W_TRD_DUPLICATE : String := "trddup"
def W_RELOCATABLE_ALIGN : String := "relalign"
def W_READ_LOW_MEM : String := "rdlow"
def W_REL_DIVERTS : String := "reldiverts"
def W_REL_UNSTABLE : String := "relunstable"
def W_DISP_MEM_PAGE : String := "dispmempage"
def W_BP_FILE : String := "bpfile"
def W_OUT0 : String := "out0"

/-- The initial contents of the static map `w_texts`, in the order of its initialiser. The map
is keyed by the id; the ids are pairwise different strings, so the order plays no role. -/
def w_texts : List (String × WarningEntry) :=
  [ (W_ABS_LABEL,
      ⟨true,
       "the `abs` is now absolute value operator, if you are using it as label, please rename",
       "Warn about parsing error of new abs operator (v1.18.0)."⟩),
    (W_NEXT_RAMTOP,
      ⟨true,
       "ZXN device doesn't init memory in any way (RAMTOP is ignored)",
       "Warn when <ramtop> argument is used with ZXSPECTRUMNEXT."⟩),
    (W_NOSLOT_RAMTOP,
      ⟨true,
       "NoSlot64k device doesn't init memory in any way (RAMTOP is ignored)",
       "Warn when <ramtop> argument is used with NOSLOT64K."⟩),
    (W_DEV_RAMTOP,
      ⟨true,
       "[DEVICE] this device was already opened with different RAMTOP value",
       "Warn when different <ramtop> is used for same device."⟩),
    (W_DISPLACED_ORG,
      ⟨true,
       "ORG-address set inside displaced block, the physical address is not modified, only displacement address",
       "Warn about ORG-address used inside DISP block."⟩),
    (W_ORG_PAGE,
      ⟨true,
       "[ORG] page argument affects current slot while address is outside",
       "Warn about ORG address vs page argument mismatch."⟩),
    (W_FWD_REF,
      ⟨true,
       "forward reference of symbol",
       "Warn about using undefined symbol in risky way."⟩),
    (W_LUA_MC_PASS,
      ⟨true,
       "When lua script emits machine code bytes, use \"ALLPASS\" modifier",
       "Warn when lua script is not ALLPASS, but emits bytes."⟩),
    (W_NEX_STACK,
      ⟨true,
       "[SAVENEX] non-zero data are in stackAddress area, may get overwritten by NEXLOAD",
       "Warn when NEX stack points into non-empty memory."⟩),
    (W_NEX_BMP_PAL,
      ⟨true,
       "[SAVENEX] BMP palette has less than 256 colours",
       "Warn when palette from BMP is incomplete."⟩),
    (W_SNA_48,
      ⟨true,
       "[SAVESNA] RAM <0x4000-0x4001> will be overwritten due to 48k snapshot imperfect format.",
       "Warn when 48k SNA does use screen for stack."⟩),
    (W_SNA_128,
      ⟨true,
       "only 128kb will be written to snapshot",
       "Warn when saving snapshot from 256+ki device."⟩),
    (W_TRD_EXT_INVALID,
      ⟨true,
       "invalid file extension, TRDOS official extensions are B, C, D and #.",
       "Warn when TRD file uses unofficial/invalid extension."⟩),
    (W_TRD_EXT_3,
      ⟨true,
       "3-letter extension of TRDOS file (unofficial extension)",
       "Warn when TRD file does use 3-letter extension."⟩),
    (W_TRD_EXT_B,
      ⟨true,
       "the \"B\" extension is always single letter",
       "Warn when long extension starts with letter B (can not)."⟩),
    (W_TRD_DUPLICATE,
      ⟨true,
       "TRD file already exists, creating one more!",
       "Warn when second file with same name is added to disk."⟩),
    (W_RELOCATABLE_ALIGN,
      ⟨true,
       "[ALIGN] inside relocation block: may become misaligned when relocated",
       "Warn when align is used inside relocatable code."⟩),
    (W_READ_LOW_MEM,
      ⟨true,
       "Reading memory at low address",
       "Warn when reading memory from addresses 0..255."⟩),
    (W_REL_DIVERTS,
      ⟨true,
       "Expression can't be relocated by simple \"+offset\" mechanics, value diverts differently.",
       "Warn when relocated expression differs non-trivially."⟩),
    (W_REL_UNSTABLE,
      ⟨true,
       "Relocation makes one of the expressions unstable, resulting machine code is not relocatable",
       "Warn when expression result can't be relocated."⟩),
    (W_DISP_MEM_PAGE,
      ⟨true,
       "DISP memory page differs from current mapping",
       "Warn when DISP page differs from current mapping."⟩),
    (W_BP_FILE,
      ⟨true,
       "breakpoints file was not specified",
       "Warn when SETBREAKPOINT is used without breakpoint file."⟩),
    (W_OUT0,
      ⟨true,
       "'out (c),0' is unstable, on CMOS based chips it does `out (c),255`",
       "Warn when instruction `out (c),0` is used."⟩) ]

/-- The state at program start: the static initialisers of `IsSkipErrors`, `PreviousErrorLine`
and `w_texts`, zero counters, nothing written and the listing file not open. -/
def initState : State :=
  { IsSkipErrors := false
    PreviousErrorLine := -1
    ErrorCount := 0
    WarningCount := 0
    w_texts := w_texts
    DefineTable := []
    listing := none
    cerr := []
    exitStatus := none }

/-! ## Helpers declared outside the module -/

/-- Modelled from the spec: the `STRCAT` macro of sjdefs.h, which is not part of the module.
It appends `src` to the line buffer `dst`; the text is kept within the bound `n`, what would
go past the bound is silently dropped. -/
def STRCAT (dst : String) (n : Nat) (src : String) : String :=
  ⟨(dst.data ++ src.data).take n⟩

/-- Modelled from the spec: the `SPRINTF1`/`SPRINTF2` macros of sjdefs.h, which are not part
of the module. `text` is the fully formatted text; a buffer of `length` bytes keeps at most
`length - 1` characters of it (the last byte is the terminating NUL). -/
def SPRINTF (length : Nat) (text : String) : String :=
  ⟨text.data.take (length - 1)⟩

/-- The conversion `%d` of the `printf` family: decimal digits, with a minus sign for a
negative number. -/
def fmtD (i : Int) : String :=
  toString i

/-- The conversion `%s` of the `printf` family. A null pointer is not a valid argument of
`%s`; it never reaches this point with the positions the assembler maintains (a position with
a non-zero line carries a file name), and the model renders it like the C library does. -/
def fmtS (p : Option String) : String :=
  p.getD "(null)"

/-- Modelled from the spec: `DefineTable.Replace(name, value)` of the global symbol table,
which is not part of the module: the counter is republished under `name`. -/
def Replace (t : List (String × Nat)) (name : String) (value : Nat) : List (String × Nat) :=
  (name, value) :: t.filter (fun d => d.1 ≠ name)

/-- The call `ExitASM(status)`: the process ends with the given exit status. -/
def ExitASM (status : Int) (s : State) : State :=
  { s with exitStatus := some status }

/-- The library function `strncmp(a, b, n)` on NUL-free strings: zero exactly when the first
`n` characters of `a` and `b` (or the whole strings, when shorter) agree, else the difference
of the first two characters that differ (the terminating NUL counts as 0). -/
def strncmp : List Char → List Char → Nat → Int
  | _, _, 0 => 0
  | [], [], _ + 1 => 0
  | [], b :: _, _ + 1 => - (b.toNat : Int)
  | a :: _, [], _ + 1 => (a.toNat : Int)
  | a :: as, b :: bs, n + 1 => if a = b then strncmp as bs n else (a.toNat : Int) - (b.toNat : Int)

/-- The library function `strstr(haystack, needle)`: the rest of `haystack` from the first
occurrence of `needle` on, `none` (a null pointer) when there is no occurrence. -/
def strstr : List Char → List Char → Option (List Char)
  | [], needle => if needle = [] then some [] else none
  | c :: cs, needle => if needle.isPrefixOf (c :: cs) then some (c :: cs) else strstr cs needle

/-! ## Position text: `initErrorLine` -/

/-- The `while (true)` loop of `initErrorLine` (USE_LUA part), over the frames from `level`
outwards. A frame whose `short_src` is not that of an inlined script fixes the position and
ends the walk; an inlined frame only moves the line to `LuaStartPos.line + ar.currentline`. The
loop ends when `lua_getstack` has no more levels. -/
def luaWalk (luaStartLine : Int) : List LuaFrame → TextFilePos → Bool → TextFilePos × Bool
  | [], errorPos, isEmittedMsgEnabled => (errorPos, isEmittedMsgEnabled)
  | ar :: outer, errorPos, isEmittedMsgEnabled =>
    if ar.short_src ≠ "[string \"script\"]" then
      ({ filename := some ar.short_src, line := ar.currentline }, true)
    else
      luaWalk luaStartLine outer { errorPos with line := luaStartLine + ar.currentline }
        isEmittedMsgEnabled

/-- The function `initErrorLine`: the pair (`ErrorLine`, `ErrorLine2`) it leaves in the two
line buffers. -/
def initErrorLine (env : Env) : String × String :=
  if env.pass < 1 ∨ env.LASTPASS < env.pass ∨ env.CurSourcePos.filename = none then ("", "")
  else
    let errorPos0 := if env.DefinitionPos.line ≠ 0 then env.DefinitionPos else env.CurSourcePos
    let found :=
      if env.LuaStartPos.line ≠ 0 then
        luaWalk env.LuaStartPos.line env.luaStack env.LuaStartPos
          (decide (0 < Env.listmacro env))
      else (errorPos0, true)
    let errorPos := found.1
    let isEmittedMsgEnabled := found.2
    let ErrorLine :=
      SPRINTF env.LINEMAX2 (fmtS errorPos.filename ++ "(" ++ fmtD errorPos.line ++ "): ")
    let ErrorLine2 :=
      if isEmittedMsgEnabled = true ∧
          (errorPos.filename ≠ env.CurSourcePos.filename ∨ errorPos.line ≠ env.CurSourcePos.line)
      then
        SPRINTF env.LINEMAX2
          (fmtS env.CurSourcePos.filename ++ "(" ++ fmtD env.CurSourcePos.line
            ++ "): ^ emitted from here\n")
      else ""
    (ErrorLine, ErrorLine2)

/-! ## Output: `outputErrorLine` -/

/-- What one call of `outputErrorLine` writes to a sink: `ErrorLine`, followed by `ErrorLine2`
when that buffer is not empty (`if (*ErrorLine2) ...`). -/
def written (ErrorLine ErrorLine2 : String) : List String :=
  if ErrorLine2 ≠ "" then [ErrorLine, ErrorLine2] else [ErrorLine]

/-- The function `outputErrorLine`: `ErrorLine` (and `ErrorLine2` when it is not empty) goes to
the listing file when there is one, and to `stderr` when `OutputVerbosity <= errorLevel`. -/
def outputErrorLine (env : Env) (errorLevel : Nat) (ErrorLine ErrorLine2 : String)
    (s : State) : State :=
  { s with
    listing := s.listing.map (fun f => f ++ written ErrorLine ErrorLine2)
    cerr :=
      if env.OutputVerbosity ≤ errorLevel then s.cerr ++ written ErrorLine ErrorLine2
      else s.cerr }

/-- Lines 115-122 of `Error`, the same as lines 159-166 of `WarningImpl`: the `[LUA] ` tag,
the message, the optional bad value and the end of line are appended to `ErrorLine`. The end
of line is appended when `strchr(ErrorLine, '\n')` finds no newline in the buffer. -/
def appendMessage (env : Env) (ErrorLine message : String) (badValueMessage : Option String) :
    String :=
  let l1 := if env.LuaStartPos.line ≠ 0 then STRCAT ErrorLine (env.LINEMAX2 - 1) "[LUA] "
    else ErrorLine
  let l2 := STRCAT l1 (env.LINEMAX2 - 1) message
  let l3 := match badValueMessage with
    | some bad => STRCAT (STRCAT l2 (env.LINEMAX2 - 1) ": ") (env.LINEMAX2 - 1) bad
    | none => l2
  if '\n' ∈ l3.data then l3 else STRCAT l3 (env.LINEMAX2 - 1) "\n"

/-- Lines 113-122 of `Error`: the contents of `ErrorLine` and `ErrorLine2` when the error is
handed to `outputErrorLine`. -/
def errorLines (env : Env) (message : String) (badValueMessage : Option String) :
    String × String :=
  let init := initErrorLine env
  (appendMessage env (STRCAT init.1 (env.LINEMAX2 - 1) "error: ") message badValueMessage,
    init.2)

/-- Lines 151-166 of `WarningImpl`: the contents of `ErrorLine` and `ErrorLine2` when the
warning is handed to `outputErrorLine`. -/
def warningLines (env : Env) (id : Option String) (message : String)
    (badValueMessage : Option String) : String × String :=
  let init := initErrorLine env
  let tagged := match id with
    | some i =>
      STRCAT (STRCAT (STRCAT init.1 (env.LINEMAX2 - 1) "warning[") (env.LINEMAX2 - 1) i)
        (env.LINEMAX2 - 1) "]: "
    | none => STRCAT init.1 (env.LINEMAX2 - 1) "warning: "
  (appendMessage env tagged message badValueMessage, init.2)

/-! ## Errors -/

/-- The function `Error(message, badValueMessage, type)`. -/
def Error (env : Env) (message : String) (badValueMessage : Option String) (type : EStatus)
    (s : State) : State :=
  -- check if it is correct pass by the type of error
  if type = .EARLY ∧ env.LASTPASS ≤ env.pass then s
  else if (type = .SUPPRESS ∨ type = .IF_FIRST ∨ type = .PASS3) ∧ env.pass < env.LASTPASS then s
  -- check if this one should be skipped due to type constraints and current-error-state
  else if type ≠ .FATAL ∧ s.PreviousErrorLine = env.CompiledCurrentLine ∧
      (s.IsSkipErrors = true ∨ type = .IF_FIRST) then s
  else
    -- update current-error-state
    let s1 : State :=
      { s with
        IsSkipErrors :=
          (s.IsSkipErrors && decide (s.PreviousErrorLine = env.CompiledCurrentLine))
            || decide (type = .SUPPRESS)
        PreviousErrorLine := env.CompiledCurrentLine
        ErrorCount := s.ErrorCount + 1 }
    let s2 : State := { s1 with DefineTable := Replace s1.DefineTable "__ERRORS__" s1.ErrorCount }
    let lines := errorLines env message badValueMessage
    let s3 := outputErrorLine env env.OV_ERROR lines.1 lines.2 s2
    -- terminate whole assembler in case of fatal error
    if type = .FATAL then ExitASM 1 s3 else s3

/-- The function `ErrorInt(message, badValue, type)`. -/
def ErrorInt (env : Env) (message : String) (badValue : Int) (type : EStatus) (s : State) :
    State :=
  Error env message (some (SPRINTF 24 (fmtD badValue))) type s

/-- The function `ErrorOOM()`. -/
def ErrorOOM (env : Env) (s : State) : State :=
  Error env "Not enough memory!" none .FATAL s

/-! ## Warnings -/

/-- The function `WarningImpl(id, message, badValueMessage, type)`. -/
def WarningImpl (env : Env) (id : Option String) (message : String)
    (badValueMessage : Option String) (type : EWStatus) (s : State) : State :=
  -- turn the warning into error if "Warnings as errors" is switched on
  if env.WarningsAsErrors = true then
    match type with
    | .W_EARLY => Error env message badValueMessage .EARLY s
    | .W_PASS3 => Error env message badValueMessage .PASS3 s
    | .W_ALL => Error env message badValueMessage .ALL s
  else
    let s1 : State := { s with WarningCount := s.WarningCount + 1 }
    let s2 : State :=
      { s1 with DefineTable := Replace s1.DefineTable "__WARNINGS__" s1.WarningCount }
    let lines := warningLines env id message badValueMessage
    outputErrorLine env env.OV_WARNING lines.1 lines.2 s2

/-- The `while` loop of `suppressedById`, started with `commentToCheck`. Each round moves
`commentToCheck` behind the next occurrence of `id`; the first argument bounds the number of
rounds (`none` when the bound is used up, which `suppressedByIdLoop_isSome` excludes for the
bound that `suppressedById` passes). -/
def suppressedByIdLoop (id : List Char) : Nat → List Char → Option Bool
  | 0, _ => none
  | fuel + 1, commentToCheck =>
    match strstr commentToCheck id with
    | none => some false
    | some idPos =>
      let commentToCheck1 := idPos.drop id.length
      if commentToCheck1.take 3 = ['-', 'o', 'k'] then some true
      else suppressedByIdLoop id fuel commentToCheck1

/-- The function `suppressedById(id)`; `none` when `assert(0 < idLength)` fails. -/
def suppressedById (env : Env) (id : String) : Option Bool :=
  match env.eolComment with
  | none => some false
  | some comment =>
    if id.data.length = 0 then none
    else suppressedByIdLoop id.data (comment.data.length + 1) comment.data

/-- The member `w_texts.find(id)`: the entry stored under `id`, `none` for `w_texts.end()`.
The map compares its `const char*` keys by address and every caller passes one of the
constants `W_...` that the map was built from, which is the same as comparing the texts. -/
def find (id : String) : List (String × WarningEntry) → Option WarningEntry
  | [] => none
  | (key, entry) :: rest => if id = key then some entry else find id rest

/-- The function `Warning(message, badValueMessage, type)`. -/
def Warning (env : Env) (message : String) (badValueMessage : Option String) (type : EWStatus)
    (s : State) : State :=
  -- check if it is correct pass by the type of error
  if type = .W_EARLY ∧ env.LASTPASS ≤ env.pass then s
  else if type = .W_PASS3 ∧ env.pass < env.LASTPASS then s
  else WarningImpl env none message badValueMessage type s

/-- The function `WarningById(id, badValueMessage, type)`; `none` when one of the assertions
(in `suppressedById`, or `idMessage != w_texts.end()`) fails. -/
def WarningById (env : Env) (id : String) (badValueMessage : Option String) (type : EWStatus)
    (s : State) : Option State :=
  -- check if it is correct pass by the type of warning
  if type = .W_EARLY ∧ env.LASTPASS ≤ env.pass then some s
  else if type = .W_PASS3 ∧ env.pass < env.LASTPASS then some s
  else
    -- id-warnings could be suppressed by "id-ok" anywhere in eol comment
    match suppressedById env id with
    | none => none
    | some true => some s
    | some false =>
      match find id s.w_texts with
      | none => none
      | some idMessage =>
        if idMessage.enabled = false then some s
        else some (WarningImpl env (some id) idMessage.txt badValueMessage type s)

/-- The overload `WarningById(id, badValue, type)` with an integer bad value. -/
def WarningByIdInt (env : Env) (id : String) (badValue : Int) (type : EWStatus) (s : State) :
    Option State :=
  WarningById env id (some (SPRINTF 32 (fmtD badValue))) type s

/-! ## The `-W` option -/

/-- The `for` loop of `CliWoption`: the first entry whose key equals `id` gets its `enabled`
flag set to `enable`; `none` when the loop ends without a match. -/
def setEnabled (id : String) (enable : Bool) :
    List (String × WarningEntry) → Option (List (String × WarningEntry))
  | [] => none
  | (key, entry) :: rest =>
    if id = key then some ((key, { entry with enabled := enable }) :: rest)
    else (setEnabled id enable rest).map (fun r => (key, entry) :: r)

/-- The function `CliWoption(option)`. -/
def CliWoption (env : Env) (option : String) (s : State) : State :=
  if option.data = [] then
    -- from command line pass == 0, from source by OPT the pass is above zero
    Error env "no argument after -W" (if env.pass = 0 then none else some env.bp)
      (if env.pass = 0 then .EARLY else .PASS3) s
  else
    -- check for specific id, with possible "no-" prefix ("-Wabs" vs "-Wno-abs")
    let enable : Bool := decide (strncmp "no-".data option.data 3 ≠ 0)
    let id : String := if enable = true then option else ⟨option.data.drop 3⟩
    match setEnabled id enable s.w_texts with
    | some updated => { s with w_texts := updated }
    | none =>
      Warning env "unknown warning id in -W option" (some id)
        (if env.pass = 0 then .W_EARLY else .W_PASS3) s

/-! ## Derived notions used to state the properties -/

/-- The condition under which `Error` returns early: line 99, line 100 or lines 102-105. -/
def errorDropped (env : Env) (type : EStatus) (s : State) : Prop :=
  (type = .EARLY ∧ env.LASTPASS ≤ env.pass) ∨
  ((type = .SUPPRESS ∨ type = .IF_FIRST ∨ type = .PASS3) ∧ env.pass < env.LASTPASS) ∨
  (type ≠ .FATAL ∧ s.PreviousErrorLine = env.CompiledCurrentLine ∧
    (s.IsSkipErrors = true ∨ type = .IF_FIRST))

instance errorDroppedDecidable (env : Env) (type : EStatus) (s : State) :
    Decidable (errorDropped env type s) := by
  unfold errorDropped
  infer_instance

/-- Lines 107-127 of `Error`: the state that `Error` leaves behind when none of its early
`return`s is taken. -/
def errorEmitted (env : Env) (message : String) (badValueMessage : Option String)
    (type : EStatus) (s : State) : State :=
  let s3 := outputErrorLine env env.OV_ERROR (errorLines env message badValueMessage).1
    (errorLines env message badValueMessage).2
    { s with
      IsSkipErrors :=
        (s.IsSkipErrors && decide (s.PreviousErrorLine = env.CompiledCurrentLine))
          || decide (type = .SUPPRESS)
      PreviousErrorLine := env.CompiledCurrentLine
      ErrorCount := s.ErrorCount + 1
      DefineTable := Replace s.DefineTable "__ERRORS__" (s.ErrorCount + 1) }
  if type = .FATAL then ExitASM 1 s3 else s3

/-- Between the states `s` and `s1` one diagnostic with the line buffers `lines` went through
`outputErrorLine` at the level `errorLevel`, and nothing else was written. -/
def wroteDiagnostic (env : Env) (errorLevel : Nat) (lines : String × String) (s s1 : State) :
    Prop :=
  s1.listing = s.listing.map (fun f => f ++ written lines.1 lines.2) ∧
  s1.cerr =
    if env.OutputVerbosity ≤ errorLevel then s.cerr ++ written lines.1 lines.2 else s.cerr

/-- One call `Error(message, badValueMessage, type)`, with the environment it is made in. -/
structure ErrorCall where
  env : Env
  message : String
  badValueMessage : Option String
  type : EStatus
  deriving DecidableEq

/-- The state after a sequence of `Error` calls. Once `ExitASM` has ended the process no
further call takes place. -/
def runErrors : List ErrorCall → State → State
  | [], s => s
  | c :: cs, s =>
    if s.exitStatus ≠ none then s
    else runErrors cs (Error c.env c.message c.badValueMessage c.type s)

/-- The class and the compiled line of the most recent call of the sequence that was emitted
(that raised `ErrorCount`); `last` is the answer for the calls made before the sequence. -/
def lastEmitted : List ErrorCall → State → Option (EStatus × Int) → Option (EStatus × Int)
  | [], _, last => last
  | c :: cs, s, last =>
    if s.exitStatus ≠ none then last
    else
      lastEmitted cs (Error c.env c.message c.badValueMessage c.type s)
        (if (Error c.env c.message c.badValueMessage c.type s).ErrorCount = s.ErrorCount
          then last else some (c.type, c.env.CompiledCurrentLine))

/-- The link between the suppression state and the most recently emitted error, for a process
that is still running: the skip flag is set exactly when that error was of class `SUPPRESS`,
and `PreviousErrorLine` is the compiled line of that error. -/
def SkipInvariant (s : State) (last : Option (EStatus × Int)) : Prop :=
  s.exitStatus = none ∧
  (s.IsSkipErrors = true ↔ ∃ line, last = some (EStatus.SUPPRESS, line)) ∧
  (∀ c line, last = some (c, line) → s.PreviousErrorLine = line)

/-- The class mapping of the promotion of a warning to an error, as the specification words
it: Early to Early, Pass3 to Pass3, All to All. -/
def promotedClass : EWStatus → EStatus
  | .W_EARLY => .EARLY
  | .W_PASS3 => .PASS3
  | .W_ALL => .ALL

/-- The ids of the registry. -/
def warningIds : List String :=
  w_texts.map (fun e => e.1)

/-- The catalog of the state is the static registry up to the `enabled` flags: same ids,
texts and help texts, in the same order. -/
def catalogShape (s : State) : Prop :=
  s.w_texts.map (fun e => (e.1, e.2.txt, e.2.help))
    = w_texts.map (fun e => (e.1, e.2.txt, e.2.help))

/-- A sample environment: pass `pass` of 3, the compiled line `line` at `main.asm(10)`, no
macro, no script, no listing annotation, everything shown on `stderr`. -/
def sampleEnv (pass line : Int) : Env :=
  { pass := pass
    LASTPASS := 3
    CompiledCurrentLine := line
    CurSourcePos := ⟨some "main.asm", 10⟩
    DefinitionPos := ⟨none, 0⟩
    LuaStartPos := ⟨none, 0⟩
    listmacro := 0
    luaStack := []
    OutputVerbosity := 0
    OV_ERROR := 2
    OV_WARNING := 1
    WarningsAsErrors := false
    eolComment := none
    bp := ""
    LINEMAX2 := 4096 }

/-- The library function `isalnum` in the "C" locale, applied to the character at a position
of a C string: an ASCII letter or digit; the terminating NUL (`none`) is not alphanumeric. -/
def isalnum : Option Char → Bool
  | none => false
  | some c => c.isAlphanum

/-- The function `warningNotSuppressed(alsoFake)`. -/
def warningNotSuppressed (env : Env) (alsoFake : Bool) : Bool :=
  match env.eolComment with
  | none => true
  | some eolComment =>
    let comment1 := eolComment.data.dropWhile (fun c => c == ';' || c == '/')
    let comment := comment1.dropWhile (fun c => c == ' ' || c == '\t')
    -- check if "ok" is first word
    if comment.get? 0 = some 'o' ∧ comment.get? 1 = some 'k' ∧ isalnum (comment.get? 2) = false
    then false
    else if alsoFake = true then (strstr eolComment.data "fake".data).isNone
    else true

/-- The id that a `-W` option names, in the words of the specification: the option text
without its leading `no-`, when it has one. -/
def optionId (option : String) : String :=
  if "no-".data.isPrefixOf option.data = true then ⟨option.data.drop 3⟩ else option

/-- Condition (a) of the legacy check, in the words of the specification: behind its leading
run of `;` and `/` and then its leading run of spaces and tabs, the annotation starts with
the letters `ok`, followed by the end of the text or by a character that is not
alphanumeric. -/
def okIsFirstWord (eolText : String) : Prop :=
  ∃ rest : List Char,
    (eolText.data.dropWhile (fun c => c == ';' || c == '/')).dropWhile
        (fun c => c == ' ' || c == '\t') = 'o' :: 'k' :: rest ∧
    (rest = [] ∨ ∃ c tail, rest = c :: tail ∧ c.isAlphanum = false)

/-- Lines 148-167 of `WarningImpl`: the state that `WarningImpl` leaves behind when the
warning is not turned into an error. -/
def warningEmitted (env : Env) (id : Option String) (message : String)
    (badValueMessage : Option String) (s : State) : State :=
  outputErrorLine env env.OV_WARNING (warningLines env id message badValueMessage).1
    (warningLines env id message badValueMessage).2
    { s with
      WarningCount := s.WarningCount + 1
      DefineTable := Replace s.DefineTable "__WARNINGS__" (s.WarningCount + 1) }

/-- The condition under which `Warning` and `WarningById` return at their pass checks (lines
374-375 and 382-383). -/
def warningGated (env : Env) (type : EWStatus) : Prop :=
  (type = .W_EARLY ∧ env.LASTPASS ≤ env.pass) ∨ (type = .W_PASS3 ∧ env.pass < env.LASTPASS)

instance warningGatedDecidable (env : Env) (type : EWStatus) :
    Decidable (warningGated env type) := by
  unfold warningGated
  infer_instance

/-- Between `s` and `s1` one diagnostic with the line buffers `lines` was emitted as an error:
it went through `outputErrorLine` at the level `OV_ERROR`, `ErrorCount` grew by exactly 1 and
`WarningCount` stayed. -/
def emittedAsError (env : Env) (lines : String × String) (s s1 : State) : Prop :=
  wroteDiagnostic env env.OV_ERROR lines s s1 ∧
  s1.ErrorCount = s.ErrorCount + 1 ∧ s1.WarningCount = s.WarningCount

/-- Between `s` and `s1` one diagnostic with the line buffers `lines` was emitted as a
warning: it went through `outputErrorLine` at the level `OV_WARNING`, `WarningCount` grew by
exactly 1 and `ErrorCount`, the skip flag and `PreviousErrorLine` stayed. -/
def emittedAsWarning (env : Env) (lines : String × String) (s s1 : State) : Prop :=
  wroteDiagnostic env env.OV_WARNING lines s s1 ∧
  s1.WarningCount = s.WarningCount + 1 ∧ s1.ErrorCount = s.ErrorCount ∧
  s1.IsSkipErrors = s.IsSkipErrors ∧ s1.PreviousErrorLine = s.PreviousErrorLine

/-- The position and the flag `isEmittedMsgEnabled` that the USE_LUA part of `initErrorLine`
(lines 51-74) arrives at for a diagnostic attributed to a script (`LuaStartPos.line != 0`). -/
def scriptErrorPos (env : Env) : TextFilePos × Bool :=
  luaWalk env.LuaStartPos.line env.luaStack env.LuaStartPos (decide (0 < Env.listmacro env))

/-- The text that follows the message of a diagnostic: `: ` and the bad value when there is
one, nothing otherwise. -/
def detailText : Option String → String
  | some bad => ": " ++ bad
  | none => ""

/-- The end of line of a diagnostic as lines 122 and 166 add it: a newline when `body`
contains no newline at all, nothing when `body` contains a newline somewhere. -/
def withEol (body : String) : String :=
  if '\n' ∈ body.data then body else body ++ "\n"

/-! ## Basic facts about `Error` -/

theorem Error_eq (env : Env) (message : String) (badValueMessage : Option String)
    (type : EStatus) (s : State) :
    Error env message badValueMessage type s =
      if errorDropped env type s then s else errorEmitted env message badValueMessage type s := by
  unfold Error errorDropped errorEmitted
  split_ifs <;> first | rfl | (exfalso; tauto)

theorem errorEmitted_ErrorCount (env : Env) (message : String) (badValueMessage : Option String)
    (type : EStatus) (s : State) :
    (errorEmitted env message badValueMessage type s).ErrorCount = s.ErrorCount + 1 := by
  unfold errorEmitted outputErrorLine ExitASM
  split_ifs <;> rfl

theorem errorEmitted_IsSkipErrors (env : Env) (message : String)
    (badValueMessage : Option String) (type : EStatus) (s : State) :
    (errorEmitted env message badValueMessage type s).IsSkipErrors =
      ((s.IsSkipErrors && decide (s.PreviousErrorLine = env.CompiledCurrentLine))
        || decide (type = .SUPPRESS)) := by
  unfold errorEmitted outputErrorLine ExitASM
  split_ifs <;> rfl

theorem errorEmitted_PreviousErrorLine (env : Env) (message : String)
    (badValueMessage : Option String) (type : EStatus) (s : State) :
    (errorEmitted env message badValueMessage type s).PreviousErrorLine
      = env.CompiledCurrentLine := by
  unfold errorEmitted outputErrorLine ExitASM
  split_ifs <;> rfl

theorem errorEmitted_WarningCount (env : Env) (message : String)
    (badValueMessage : Option String) (type : EStatus) (s : State) :
    (errorEmitted env message badValueMessage type s).WarningCount = s.WarningCount := by
  unfold errorEmitted outputErrorLine ExitASM
  split_ifs <;> rfl

theorem errorEmitted_exitStatus (env : Env) (message : String)
    (badValueMessage : Option String) (type : EStatus) (s : State) :
    (errorEmitted env message badValueMessage type s).exitStatus
      = if type = .FATAL then some 1 else s.exitStatus := by
  unfold errorEmitted outputErrorLine ExitASM
  split_ifs <;> rfl

theorem errorEmitted_wrote (env : Env) (message : String) (badValueMessage : Option String)
    (type : EStatus) (s : State) :
    wroteDiagnostic env env.OV_ERROR (errorLines env message badValueMessage) s
      (errorEmitted env message badValueMessage type s) := by
  unfold wroteDiagnostic errorEmitted outputErrorLine ExitASM
  split_ifs <;> exact ⟨rfl, by simp_all⟩

theorem Error_eq_self_iff (env : Env) (message : String) (badValueMessage : Option String)
    (type : EStatus) (s : State) :
    Error env message badValueMessage type s = s ↔ errorDropped env type s := by
  rw [Error_eq]
  constructor
  · intro h
    by_contra hd
    rw [if_neg hd] at h
    have hc := errorEmitted_ErrorCount env message badValueMessage type s
    rw [h] at hc
    omega
  · intro h
    rw [if_pos h]

theorem Error_of_not_dropped (env : Env) (message : String) (badValueMessage : Option String)
    (type : EStatus) (s : State) (h : ¬ errorDropped env type s) :
    Error env message badValueMessage type s = errorEmitted env message badValueMessage type s := by
  rw [Error_eq, if_neg h]

theorem Error_ErrorCount_eq_iff (env : Env) (message : String)
    (badValueMessage : Option String) (type : EStatus) (s : State) :
    (Error env message badValueMessage type s).ErrorCount = s.ErrorCount
      ↔ errorDropped env type s := by
  rw [Error_eq]
  by_cases hd : errorDropped env type s
  · simp [hd]
  · simp [hd, errorEmitted_ErrorCount]

/-! ## Same-line gating of errors -/

theorem SkipInvariant_step (env : Env) (message : String) (badValueMessage : Option String)
    (type : EStatus) (s : State) (last : Option (EStatus × Int)) (hnf : type ≠ .FATAL)
    (hinv : SkipInvariant s last) :
    SkipInvariant (Error env message badValueMessage type s)
      (if (Error env message badValueMessage type s).ErrorCount = s.ErrorCount
        then last else some (type, env.CompiledCurrentLine)) := by
  by_cases hd : errorDropped env type s
  · have hs : Error env message badValueMessage type s = s :=
      (Error_eq_self_iff env message badValueMessage type s).2 hd
    rw [hs]
    simpa using hinv
  · have hc : (Error env message badValueMessage type s).ErrorCount ≠ s.ErrorCount := by
      rw [Ne, Error_ErrorCount_eq_iff]
      exact hd
    rw [if_neg hc, Error_of_not_dropped env message badValueMessage type s hd]
    obtain ⟨hexit, -, -⟩ := hinv
    refine ⟨?_, ?_, ?_⟩
    · rw [errorEmitted_exitStatus, if_neg hnf, hexit]
    · rw [errorEmitted_IsSkipErrors]
      have hnot : ¬ (s.PreviousErrorLine = env.CompiledCurrentLine ∧ s.IsSkipErrors = true) := by
        intro hh
        exact hd (Or.inr (Or.inr ⟨hnf, hh.1, Or.inl hh.2⟩))
      constructor
      · intro h
        refine ⟨env.CompiledCurrentLine, ?_⟩
        simp only [Bool.or_eq_true, Bool.and_eq_true, decide_eq_true_eq] at h
        rcases h with h | h
        · exact absurd ⟨h.2, h.1⟩ hnot
        · rw [h]
      · rintro ⟨line, hl⟩
        simp only [Option.some.injEq, Prod.mk.injEq] at hl
        simp [hl.1]
    · intro c line hl
      simp only [Option.some.injEq, Prod.mk.injEq] at hl
      rw [errorEmitted_PreviousErrorLine, hl.2]

theorem SkipInvariant_run (calls : List ErrorCall) :
    ∀ (s : State) (last : Option (EStatus × Int)),
      (∀ c ∈ calls, c.type ≠ EStatus.FATAL) → SkipInvariant s last →
      SkipInvariant (runErrors calls s) (lastEmitted calls s last) := by
  induction calls with
  | nil =>
    intro s last _ hinv
    simpa [runErrors, lastEmitted] using hinv
  | cons c cs ih =>
    intro s last hnf hinv
    have hexit : s.exitStatus = none := hinv.1
    simp only [runErrors, lastEmitted, hexit, ne_eq, not_true_eq_false, if_false]
    exact ih _ _ (fun d hd => hnf d (List.mem_cons_of_mem c hd))
      (SkipInvariant_step c.env c.message c.badValueMessage c.type s last
        (hnf c (List.mem_cons_self c cs)) hinv)

theorem SkipInvariant_init : SkipInvariant initState none := by
  refine ⟨rfl, ?_, ?_⟩
  · simp [initState]
  · intro c line h
    simp at h

/-- C1 (as amended). In every state reached from the initial state by non-fatal `Error` calls,
the skip flag is set exactly when the most recently emitted error was of class `SUPPRESS`; and
when that error was emitted on the compiled line that is still current, a further error
reported at the last pass (`LASTPASS <= pass`) is always dropped if its class is `IF_FIRST`,
always dropped (by the pass check) if its class is `EARLY`, and dropped exactly when the most
recently emitted error was of class `SUPPRESS` if its class is `SUPPRESS`, `PASS3` or `ALL`. -/
theorem same_line_error_after_emitted (calls : List ErrorCall)
    (hnf : ∀ c ∈ calls, c.type ≠ EStatus.FATAL)
    (env : Env) (message : String) (badValueMessage : Option String) (type c0 : EStatus)
    (hlast : lastEmitted calls initState none = some (c0, env.CompiledCurrentLine))
    (hpass : env.LASTPASS ≤ env.pass) :
    ((runErrors calls initState).IsSkipErrors = true ↔ c0 = .SUPPRESS) ∧
    (type = .IF_FIRST →
      Error env message badValueMessage type (runErrors calls initState)
        = runErrors calls initState) ∧
    (type = .EARLY →
      Error env message badValueMessage type (runErrors calls initState)
        = runErrors calls initState) ∧
    (type = .SUPPRESS ∨ type = .PASS3 ∨ type = .ALL →
      (Error env message badValueMessage type (runErrors calls initState)
        = runErrors calls initState ↔ c0 = .SUPPRESS)) := by
  obtain ⟨-, hskip, hline⟩ := SkipInvariant_run calls initState none hnf SkipInvariant_init
  have hprev : (runErrors calls initState).PreviousErrorLine = env.CompiledCurrentLine :=
    hline c0 env.CompiledCurrentLine hlast
  have hskip0 : (runErrors calls initState).IsSkipErrors = true ↔ c0 = .SUPPRESS := by
    rw [hskip, hlast]
    simp
  refine ⟨hskip0, ?_, ?_, ?_⟩
  · intro ht
    rw [Error_eq_self_iff]
    exact Or.inr (Or.inr ⟨by simp [ht], hprev, Or.inr ht⟩)
  · intro ht
    rw [Error_eq_self_iff]
    exact Or.inl ⟨ht, hpass⟩
  · intro ht
    rw [Error_eq_self_iff, ← hskip0]
    constructor
    · rintro (h | h | h)
      · rcases ht with ht | ht | ht <;> simp [ht] at h
      · exact absurd h.2 (not_lt.mpr hpass)
      · rcases h.2.2 with h3 | h3
        · exact h3
        · rcases ht with ht | ht | ht <;> simp [ht] at h3
    · intro h
      refine Or.inr (Or.inr ⟨?_, hprev, Or.inl h⟩)
      rcases ht with ht | ht | ht <;> simp [ht]

/-- Witness of C1 (as amended): the sequence that consists of the `ALL` error "A" on line 10 in
pass 3 of 3 meets the hypotheses, and the `ALL` error "B" that follows on line 10 is not
dropped, the most recently emitted error being of class `ALL`. -/
theorem same_line_error_after_emitted_witness :
    (∀ c ∈ [ErrorCall.mk (sampleEnv 3 10) "A" none EStatus.ALL], c.type ≠ EStatus.FATAL) ∧
    lastEmitted [ErrorCall.mk (sampleEnv 3 10) "A" none EStatus.ALL] initState none
      = some (EStatus.ALL, (sampleEnv 3 10).CompiledCurrentLine) ∧
    (sampleEnv 3 10).LASTPASS ≤ (sampleEnv 3 10).pass ∧
    (((runErrors [ErrorCall.mk (sampleEnv 3 10) "A" none EStatus.ALL] initState).IsSkipErrors
        = true ↔ EStatus.ALL = EStatus.SUPPRESS) ∧
      (EStatus.ALL = .IF_FIRST →
        Error (sampleEnv 3 10) "B" none EStatus.ALL
            (runErrors [ErrorCall.mk (sampleEnv 3 10) "A" none EStatus.ALL] initState)
          = runErrors [ErrorCall.mk (sampleEnv 3 10) "A" none EStatus.ALL] initState) ∧
      (EStatus.ALL = .EARLY →
        Error (sampleEnv 3 10) "B" none EStatus.ALL
            (runErrors [ErrorCall.mk (sampleEnv 3 10) "A" none EStatus.ALL] initState)
          = runErrors [ErrorCall.mk (sampleEnv 3 10) "A" none EStatus.ALL] initState) ∧
      (EStatus.ALL = .SUPPRESS ∨ EStatus.ALL = .PASS3 ∨ EStatus.ALL = .ALL →
        (Error (sampleEnv 3 10) "B" none EStatus.ALL
            (runErrors [ErrorCall.mk (sampleEnv 3 10) "A" none EStatus.ALL] initState)
          = runErrors [ErrorCall.mk (sampleEnv 3 10) "A" none EStatus.ALL] initState
          ↔ EStatus.ALL = EStatus.SUPPRESS))) :=
  ⟨by decide, by decide, by decide,
    same_line_error_after_emitted [ErrorCall.mk (sampleEnv 3 10) "A" none EStatus.ALL]
      (by decide) (sampleEnv 3 10) "B" none EStatus.ALL EStatus.ALL (by decide) (by decide)⟩

/-- Counterexample to C1 as stated: in pass 3 of 3, after the `ALL` error "A" was emitted on
line 10 (the most recently emitted error is not of class `SUPPRESS`, the skip flag is not set),
the `EARLY` error "B" reported on line 10 is dropped all the same. -/
theorem early_error_dropped_after_all_error :
    lastEmitted [ErrorCall.mk (sampleEnv 3 10) "A" none EStatus.ALL] initState none
      = some (EStatus.ALL, 10) ∧
    (runErrors [ErrorCall.mk (sampleEnv 3 10) "A" none EStatus.ALL] initState).IsSkipErrors
      = false ∧
    (runErrors [ErrorCall.mk (sampleEnv 3 10) "A" none EStatus.ALL] initState).cerr
      = ["main.asm(10): error: A\n"] ∧
    Error (sampleEnv 3 10) "B" none EStatus.EARLY
        (runErrors [ErrorCall.mk (sampleEnv 3 10) "A" none EStatus.ALL] initState)
      = runErrors [ErrorCall.mk (sampleEnv 3 10) "A" none EStatus.ALL] initState := by
  decide

/-- C2 (as amended). Of two `ALL` errors reported back to back, on one compiled line or not, the
second is emitted whenever the first is: both raise `ErrorCount`, so that it grows by 2, and
both are written. In particular both are emitted from the initial state. -/
theorem all_error_pair_both_emitted (s : State) (env1 env2 : Env) (m1 m2 : String)
    (d1 d2 : Option String) (hfirst : Error env1 m1 d1 .ALL s ≠ s) :
    Error env1 m1 d1 .ALL s = errorEmitted env1 m1 d1 .ALL s ∧
    Error env2 m2 d2 .ALL (Error env1 m1 d1 .ALL s)
      = errorEmitted env2 m2 d2 .ALL (errorEmitted env1 m1 d1 .ALL s) ∧
    (Error env2 m2 d2 .ALL (Error env1 m1 d1 .ALL s)).ErrorCount = s.ErrorCount + 2 ∧
    wroteDiagnostic env1 env1.OV_ERROR (errorLines env1 m1 d1) s (Error env1 m1 d1 .ALL s) ∧
    wroteDiagnostic env2 env2.OV_ERROR (errorLines env2 m2 d2) (Error env1 m1 d1 .ALL s)
      (Error env2 m2 d2 .ALL (Error env1 m1 d1 .ALL s)) := by
  have hd1 : ¬ errorDropped env1 .ALL s := by
    rw [← Error_eq_self_iff env1 m1 d1]
    exact hfirst
  have h1 := Error_of_not_dropped env1 m1 d1 .ALL s hd1
  have hskip : (errorEmitted env1 m1 d1 .ALL s).IsSkipErrors = false := by
    rw [errorEmitted_IsSkipErrors]
    have hnot : ¬ (s.PreviousErrorLine = env1.CompiledCurrentLine ∧ s.IsSkipErrors = true) :=
      fun hh => hd1 (Or.inr (Or.inr ⟨by simp, hh.1, Or.inl hh.2⟩))
    by_cases hp : s.PreviousErrorLine = env1.CompiledCurrentLine
    · have : s.IsSkipErrors = false := by
        cases hs : s.IsSkipErrors
        · rfl
        · exact absurd ⟨hp, hs⟩ hnot
      simp [this]
    · simp [hp]
  have hd2 : ¬ errorDropped env2 .ALL (errorEmitted env1 m1 d1 .ALL s) := by
    rintro (h | h | h)
    · simp at h
    · simp at h
    · rcases h.2.2 with h3 | h3
      · rw [hskip] at h3
        simp at h3
      · simp at h3
  have h2 := Error_of_not_dropped env2 m2 d2 .ALL (errorEmitted env1 m1 d1 .ALL s) hd2
  rw [h1, h2]
  refine ⟨rfl, rfl, ?_, errorEmitted_wrote env1 m1 d1 .ALL s,
    errorEmitted_wrote env2 m2 d2 .ALL _⟩
  rw [errorEmitted_ErrorCount, errorEmitted_ErrorCount]

/-- Witness of C2 (as amended): the errors "A" and "B" of class `ALL`, reported on line 10 in
pass 3 of 3 from the initial state. -/
theorem all_error_pair_both_emitted_witness :
    Error (sampleEnv 3 10) "A" none .ALL initState ≠ initState ∧
    (Error (sampleEnv 3 10) "B" none .ALL
      (Error (sampleEnv 3 10) "A" none .ALL initState)).ErrorCount = initState.ErrorCount + 2 :=
  ⟨by decide,
    (all_error_pair_both_emitted initState (sampleEnv 3 10) (sampleEnv 3 10) "A" "B" none none
      (by decide)).2.2.1⟩

/-- Counterexample to C2 as stated: from the initial state, in pass 3 of 3 on the compiled line
10, `Error("A", nullptr, ALL)` followed by `Error("B", nullptr, ALL)` writes two lines, the one
for "A" and the one for "B", and leaves `ErrorCount == 2`. -/
theorem two_all_errors_on_line_10 :
    initState.ErrorCount = 0 ∧ initState.IsSkipErrors = false ∧
    (Error (sampleEnv 3 10) "B" none .ALL
      (Error (sampleEnv 3 10) "A" none .ALL initState)).cerr
      = ["main.asm(10): error: A\n", "main.asm(10): error: B\n"] ∧
    (Error (sampleEnv 3 10) "B" none .ALL
      (Error (sampleEnv 3 10) "A" none .ALL initState)).ErrorCount = 2 := by
  decide

/-! ## After a `SUPPRESS` error -/

theorem runErrors_dropped (calls : List ErrorCall) (s : State)
    (hdrop : ∀ c ∈ calls, errorDropped c.env c.type s) : runErrors calls s = s := by
  induction calls with
  | nil => rfl
  | cons c cs ih =>
    simp only [runErrors]
    split_ifs
    · rfl
    · rw [(Error_eq_self_iff c.env c.message c.badValueMessage c.type s).2
        (hdrop c (List.mem_cons_self c cs))]
      exact ih (fun d hd => hdrop d (List.mem_cons_of_mem c hd))

/-- C3 (as amended). After a `SUPPRESS` error has been emitted on a compiled line, every
sequence of errors of non-fatal classes reported while `CompiledCurrentLine` is that line is
dropped as a whole: the state (counters, suppression state, everything written) stays as the
`SUPPRESS` error left it, with the skip flag set. A `FATAL` error is not covered: it is
emitted. -/
theorem errors_dropped_after_suppress (env : Env) (message : String)
    (badValueMessage : Option String) (s : State)
    (hemit : Error env message badValueMessage .SUPPRESS s ≠ s)
    (calls : List ErrorCall)
    (hline : ∀ c ∈ calls, c.env.CompiledCurrentLine = env.CompiledCurrentLine)
    (hnf : ∀ c ∈ calls, c.type ≠ EStatus.FATAL) :
    runErrors calls (Error env message badValueMessage .SUPPRESS s)
      = Error env message badValueMessage .SUPPRESS s ∧
    (Error env message badValueMessage .SUPPRESS s).IsSkipErrors = true ∧
    (Error env message badValueMessage .SUPPRESS s).PreviousErrorLine
      = env.CompiledCurrentLine ∧
    ∀ (env1 : Env) (m1 : String) (d1 : Option String),
      (Error env1 m1 d1 .FATAL (Error env message badValueMessage .SUPPRESS s)).ErrorCount
        = (Error env message badValueMessage .SUPPRESS s).ErrorCount + 1 := by
  have hd : ¬ errorDropped env .SUPPRESS s := by
    rw [← Error_eq_self_iff env message badValueMessage]
    exact hemit
  rw [Error_of_not_dropped env message badValueMessage .SUPPRESS s hd]
  have hskip : (errorEmitted env message badValueMessage .SUPPRESS s).IsSkipErrors = true := by
    rw [errorEmitted_IsSkipErrors]
    simp
  have hprev := errorEmitted_PreviousErrorLine env message badValueMessage .SUPPRESS s
  refine ⟨?_, hskip, hprev, ?_⟩
  · apply runErrors_dropped
    intro c hc
    exact Or.inr (Or.inr ⟨hnf c hc, by rw [hprev, hline c hc], Or.inl hskip⟩)
  · intro env1 m1 d1
    rw [Error_of_not_dropped env1 m1 d1 .FATAL _ (by simp [errorDropped]),
      errorEmitted_ErrorCount]

/-- Witness of C3 (as amended): a `SUPPRESS` error emitted on line 10 in pass 3 of 3, followed
on the same line by an `ALL` error and an `IF_FIRST` error. -/
theorem errors_dropped_after_suppress_witness :
    Error (sampleEnv 3 10) "S" none .SUPPRESS initState ≠ initState ∧
    runErrors
        [ErrorCall.mk (sampleEnv 3 10) "A" none .ALL,
          ErrorCall.mk (sampleEnv 3 10) "B" (some "x") .IF_FIRST]
        (Error (sampleEnv 3 10) "S" none .SUPPRESS initState)
      = Error (sampleEnv 3 10) "S" none .SUPPRESS initState :=
  ⟨by decide,
    (errors_dropped_after_suppress (sampleEnv 3 10) "S" none initState (by decide)
      [ErrorCall.mk (sampleEnv 3 10) "A" none .ALL,
        ErrorCall.mk (sampleEnv 3 10) "B" (some "x") .IF_FIRST]
      (by decide) (by decide)).1⟩

/-- Counterexample to C3 as stated: after the `SUPPRESS` error "S" was emitted on line 10, the
`FATAL` error "F" reported on line 10 is not dropped: it is written, `ErrorCount` goes from 1
to 2, and the process exits with status 1. -/
theorem fatal_error_emitted_after_suppress :
    (Error (sampleEnv 3 10) "S" none .SUPPRESS initState).IsSkipErrors = true ∧
    (Error (sampleEnv 3 10) "S" none .SUPPRESS initState).PreviousErrorLine = 10 ∧
    (Error (sampleEnv 3 10) "S" none .SUPPRESS initState).ErrorCount = 1 ∧
    (Error (sampleEnv 3 10) "F" none .FATAL
      (Error (sampleEnv 3 10) "S" none .SUPPRESS initState)).ErrorCount = 2 ∧
    (Error (sampleEnv 3 10) "F" none .FATAL
      (Error (sampleEnv 3 10) "S" none .SUPPRESS initState)).cerr
      = ["main.asm(10): error: S\n", "main.asm(10): error: F\n"] ∧
    (Error (sampleEnv 3 10) "F" none .FATAL
      (Error (sampleEnv 3 10) "S" none .SUPPRESS initState)).exitStatus = some 1 := by
  decide

/-! ## An error on a new line; the pass checks; fatal errors -/

/-- C4. An error that passes the pass checks of lines 99-100 and is reported on a compiled line
other than `PreviousErrorLine` is emitted whatever the skip flag was: it is written,
`ErrorCount` grows by 1, `PreviousErrorLine` becomes the current line and the skip flag
afterwards is set exactly when the class of the error is `SUPPRESS`. For every emitted error
the new skip flag is (old skip flag and same line as before) or (class is `SUPPRESS`). -/
theorem error_on_new_line (env : Env) (message : String) (badValueMessage : Option String)
    (type : EStatus) (s : State)
    (hearly : ¬ (type = .EARLY ∧ env.LASTPASS ≤ env.pass))
    (hlate : ¬ ((type = .SUPPRESS ∨ type = .IF_FIRST ∨ type = .PASS3) ∧ env.pass < env.LASTPASS)) :
    (env.CompiledCurrentLine ≠ s.PreviousErrorLine →
      Error env message badValueMessage type s = errorEmitted env message badValueMessage type s ∧
      wroteDiagnostic env env.OV_ERROR (errorLines env message badValueMessage) s
        (Error env message badValueMessage type s) ∧
      (Error env message badValueMessage type s).ErrorCount = s.ErrorCount + 1 ∧
      (Error env message badValueMessage type s).PreviousErrorLine = env.CompiledCurrentLine ∧
      ((Error env message badValueMessage type s).IsSkipErrors = true ↔ type = .SUPPRESS)) ∧
    (Error env message badValueMessage type s ≠ s →
      (Error env message badValueMessage type s).PreviousErrorLine = env.CompiledCurrentLine ∧
      (Error env message badValueMessage type s).IsSkipErrors =
        ((s.IsSkipErrors && decide (s.PreviousErrorLine = env.CompiledCurrentLine))
          || decide (type = .SUPPRESS))) := by
  constructor
  · intro hnew
    have hd : ¬ errorDropped env type s := by
      rintro (h | h | h)
      · exact hearly h
      · exact hlate h
      · exact hnew h.2.1.symm
    rw [Error_of_not_dropped env message badValueMessage type s hd]
    refine ⟨rfl, errorEmitted_wrote env message badValueMessage type s,
      errorEmitted_ErrorCount env message badValueMessage type s,
      errorEmitted_PreviousErrorLine env message badValueMessage type s, ?_⟩
    rw [errorEmitted_IsSkipErrors]
    have hne : ¬ s.PreviousErrorLine = env.CompiledCurrentLine := fun h => hnew h.symm
    simp [hne]
  · intro hemit
    have hd : ¬ errorDropped env type s := by
      rw [← Error_eq_self_iff env message badValueMessage]
      exact hemit
    rw [Error_of_not_dropped env message badValueMessage type s hd]
    exact ⟨errorEmitted_PreviousErrorLine env message badValueMessage type s,
      errorEmitted_IsSkipErrors env message badValueMessage type s⟩

/-- Witness of C4: with the skip flag set for line 10, a `PASS3` error reported on line 11 in
pass 3 of 3 is emitted and clears the flag. -/
theorem error_on_new_line_witness :
    ¬ (EStatus.PASS3 = .EARLY ∧ (sampleEnv 3 11).LASTPASS ≤ (sampleEnv 3 11).pass) ∧
    ¬ ((EStatus.PASS3 = .SUPPRESS ∨ EStatus.PASS3 = .IF_FIRST ∨ EStatus.PASS3 = .PASS3)
        ∧ (sampleEnv 3 11).pass < (sampleEnv 3 11).LASTPASS) ∧
    (sampleEnv 3 11).CompiledCurrentLine
      ≠ (Error (sampleEnv 3 10) "S" none .SUPPRESS initState).PreviousErrorLine ∧
    (Error (sampleEnv 3 10) "S" none .SUPPRESS initState).IsSkipErrors = true ∧
    ((Error (sampleEnv 3 11) "P" none .PASS3
        (Error (sampleEnv 3 10) "S" none .SUPPRESS initState)).IsSkipErrors = true
      ↔ EStatus.PASS3 = .SUPPRESS) :=
  ⟨by decide, by decide, by decide, by decide,
    ((error_on_new_line (sampleEnv 3 11) "P" none .PASS3
      (Error (sampleEnv 3 10) "S" none .SUPPRESS initState) (by decide) (by decide)).1
        (by decide)).2.2.2.2⟩

/-- C5. Whatever the state and whether warnings are turned into errors or not: an `EARLY`
diagnostic reported while `LASTPASS <= pass`, and a `PASS3` diagnostic reported while
`pass < LASTPASS`, leaves the state as it is (nothing written, no counter changed), through
`Error`, through `Warning` and through `WarningById`. -/
theorem pass_check_drops (env : Env) (message id : String) (badValueMessage : Option String)
    (s : State) :
    (env.LASTPASS ≤ env.pass →
      Error env message badValueMessage .EARLY s = s ∧
      Warning env message badValueMessage .W_EARLY s = s ∧
      WarningById env id badValueMessage .W_EARLY s = some s) ∧
    (env.pass < env.LASTPASS →
      Error env message badValueMessage .PASS3 s = s ∧
      Warning env message badValueMessage .W_PASS3 s = s ∧
      WarningById env id badValueMessage .W_PASS3 s = some s) := by
  constructor
  · intro h
    refine ⟨?_, ?_, ?_⟩
    · rw [Error_eq_self_iff]
      exact Or.inl ⟨rfl, h⟩
    · simp [Warning, h]
    · simp [WarningById, h]
  · intro h
    refine ⟨?_, ?_, ?_⟩
    · rw [Error_eq_self_iff]
      exact Or.inr (Or.inl ⟨Or.inr (Or.inr rfl), h⟩)
    · simp [Warning, h]
    · simp [WarningById, h]

/-- Witness of C5: in pass 3 of 3 the `EARLY` diagnostics are dropped, in pass 1 of 3 the
`PASS3` diagnostics are. -/
theorem pass_check_drops_witness :
    (sampleEnv 3 10).LASTPASS ≤ (sampleEnv 3 10).pass ∧
    (sampleEnv 1 10).pass < (sampleEnv 1 10).LASTPASS ∧
    (Error (sampleEnv 3 10) "e" none .EARLY initState = initState ∧
      Warning (sampleEnv 3 10) "e" none .W_EARLY initState = initState ∧
      WarningById (sampleEnv 3 10) "abs" none .W_EARLY initState = some initState) ∧
    (Error (sampleEnv 1 10) "e" none .PASS3 initState = initState ∧
      Warning (sampleEnv 1 10) "e" none .W_PASS3 initState = initState ∧
      WarningById (sampleEnv 1 10) "abs" none .W_PASS3 initState = some initState) :=
  ⟨by decide, by decide,
    (pass_check_drops (sampleEnv 3 10) "e" "abs" none initState).1 (by decide),
    (pass_check_drops (sampleEnv 1 10) "e" "abs" none initState).2 (by decide)⟩

/-- C6 (as amended). While `pass < LASTPASS` an error of class `PASS3`, `SUPPRESS` or `IF_FIRST`
is dropped by the pass check of line 100: the state (`ErrorCount`, the skip flag,
`PreviousErrorLine`, everything written) is unchanged. An error of class `ALL` is not subject to
the pass check: it is dropped only by the same-line check, that is exactly when it is
reported on the line of the previous error while the skip flag is set. -/
theorem early_pass_error_drops (env : Env) (message : String) (badValueMessage : Option String)
    (type : EStatus) (s : State) (hpass : env.pass < env.LASTPASS) :
    (type = .PASS3 ∨ type = .SUPPRESS ∨ type = .IF_FIRST →
      Error env message badValueMessage type s = s) ∧
    (Error env message badValueMessage .ALL s = s ↔
      (s.PreviousErrorLine = env.CompiledCurrentLine ∧ s.IsSkipErrors = true)) := by
  constructor
  · intro ht
    rw [Error_eq_self_iff]
    exact Or.inr (Or.inl ⟨by tauto, hpass⟩)
  · rw [Error_eq_self_iff]
    constructor
    · rintro (h | h | h)
      · simp at h
      · simp at h
      · rcases h.2.2 with h3 | h3
        · exact ⟨h.2.1, h3⟩
        · simp at h3
    · intro h
      exact Or.inr (Or.inr ⟨by simp, h.1, Or.inl h.2⟩)

/-- Witness of C6 (as amended): a `SUPPRESS` error in pass 1 of 3. -/
theorem early_pass_error_drops_witness :
    (sampleEnv 1 10).pass < (sampleEnv 1 10).LASTPASS ∧
    Error (sampleEnv 1 10) "S" none .SUPPRESS initState = initState :=
  ⟨by decide,
    (early_pass_error_drops (sampleEnv 1 10) "S" none .SUPPRESS initState (by decide)).1
      (Or.inr (Or.inl rfl))⟩

/-- Counterexample to C6 as stated: in pass 1 of 3 (`pass < LASTPASS`) the `ALL` error "A"
reported from the initial state is not dropped: it is written, `ErrorCount` becomes 1 and
`PreviousErrorLine` becomes the current line 10. -/
theorem all_error_emitted_in_early_pass :
    (sampleEnv 1 10).pass < (sampleEnv 1 10).LASTPASS ∧
    (Error (sampleEnv 1 10) "A" none .ALL initState).ErrorCount = 1 ∧
    initState.ErrorCount = 0 ∧
    (Error (sampleEnv 1 10) "A" none .ALL initState).PreviousErrorLine = 10 ∧
    initState.PreviousErrorLine = -1 ∧
    (Error (sampleEnv 1 10) "A" none .ALL initState).cerr = ["main.asm(10): error: A\n"] := by
  decide

theorem runErrors_exited (calls : List ErrorCall) (s : State) (h : s.exitStatus ≠ none) :
    runErrors calls s = s := by
  cases calls with
  | nil => rfl
  | cons c cs => simp [runErrors, h]

/-- C7. A `FATAL` error is never dropped: in every environment and every state (also with the
skip flag set for the current line) `Error(message, badValueMessage, FATAL)` hands one
diagnostic to `outputErrorLine` (the primary line, with the secondary line only when there is
one), raises `ErrorCount` by exactly 1 and ends the process with the exit status 1, which is
not zero, so that no later call reports anything; and `ErrorOOM()` is
`Error("Not enough memory!", nullptr, FATAL)`. -/
theorem fatal_error_never_dropped (env : Env) (message : String)
    (badValueMessage : Option String) (s : State) :
    Error env message badValueMessage .FATAL s
      = errorEmitted env message badValueMessage .FATAL s ∧
    wroteDiagnostic env env.OV_ERROR (errorLines env message badValueMessage) s
      (Error env message badValueMessage .FATAL s) ∧
    (written (errorLines env message badValueMessage).1
        (errorLines env message badValueMessage).2).head?
      = some (errorLines env message badValueMessage).1 ∧
    (written (errorLines env message badValueMessage).1
        (errorLines env message badValueMessage).2).length ≤ 2 ∧
    (Error env message badValueMessage .FATAL s).ErrorCount = s.ErrorCount + 1 ∧
    (Error env message badValueMessage .FATAL s).exitStatus = some 1 ∧
    (Error env message badValueMessage .FATAL s).exitStatus ≠ some 0 ∧
    (∀ calls : List ErrorCall,
      runErrors calls (Error env message badValueMessage .FATAL s)
        = Error env message badValueMessage .FATAL s) ∧
    ErrorOOM env s = Error env "Not enough memory!" none .FATAL s := by
  have hd : ¬ errorDropped env .FATAL s := by simp [errorDropped]
  have hexit : (errorEmitted env message badValueMessage .FATAL s).exitStatus = some 1 := by
    rw [errorEmitted_exitStatus]
    simp
  rw [Error_of_not_dropped env message badValueMessage .FATAL s hd]
  refine ⟨rfl, errorEmitted_wrote env message badValueMessage .FATAL s, ?_, ?_,
    errorEmitted_ErrorCount env message badValueMessage .FATAL s, hexit, ?_, ?_, rfl⟩
  · unfold written
    split_ifs <;> rfl
  · unfold written
    split_ifs <;> simp
  · rw [hexit]
    decide
  · intro calls
    exact runErrors_exited calls _ (by rw [hexit]; simp)

/-! ## Warnings turned into errors -/

theorem Error_WarningCount (env : Env) (message : String) (badValueMessage : Option String)
    (type : EStatus) (s : State) :
    (Error env message badValueMessage type s).WarningCount = s.WarningCount := by
  rw [Error_eq]
  split_ifs
  · rfl
  · exact errorEmitted_WarningCount env message badValueMessage type s

theorem WarningImpl_promoted (env : Env) (id : Option String) (message : String)
    (badValueMessage : Option String) (type : EWStatus) (s : State)
    (hwae : env.WarningsAsErrors = true) :
    WarningImpl env id message badValueMessage type s
      = Error env message badValueMessage (promotedClass type) s := by
  unfold WarningImpl
  rw [if_pos hwae]
  cases type <;> rfl

/-- C8. With `WarningsAsErrors` set, `Warning(message, badValueMessage, type)` leaves exactly
the state that `Error(message, badValueMessage, m(type))` leaves, with `m` mapping `W_EARLY`
to `EARLY`, `W_PASS3` to `PASS3` and `W_ALL` to `ALL` (so the pass checks of `Warning` drop
nothing that `Error` would have emitted); `WarningCount` is not changed; and a warning that is
not dropped raises `ErrorCount` by 1 and updates `PreviousErrorLine` and the skip flag like
any emitted error. -/
theorem warning_as_error (env : Env) (message : String) (badValueMessage : Option String)
    (type : EWStatus) (s : State) (hwae : env.WarningsAsErrors = true) :
    Warning env message badValueMessage type s
      = Error env message badValueMessage (promotedClass type) s ∧
    (Warning env message badValueMessage type s).WarningCount = s.WarningCount ∧
    (Warning env message badValueMessage type s ≠ s →
      Warning env message badValueMessage type s
        = errorEmitted env message badValueMessage (promotedClass type) s ∧
      wroteDiagnostic env env.OV_ERROR (errorLines env message badValueMessage) s
        (Warning env message badValueMessage type s) ∧
      (Warning env message badValueMessage type s).ErrorCount = s.ErrorCount + 1 ∧
      (Warning env message badValueMessage type s).PreviousErrorLine
        = env.CompiledCurrentLine ∧
      (Warning env message badValueMessage type s).IsSkipErrors =
        ((s.IsSkipErrors && decide (s.PreviousErrorLine = env.CompiledCurrentLine))
          || decide (promotedClass type = .SUPPRESS))) := by
  have heq : Warning env message badValueMessage type s
      = Error env message badValueMessage (promotedClass type) s := by
    unfold Warning
    split_ifs with h1 h2
    · rw [h1.1]
      exact ((Error_eq_self_iff env message badValueMessage .EARLY s).2
        (Or.inl ⟨rfl, h1.2⟩)).symm
    · rw [h2.1]
      exact ((Error_eq_self_iff env message badValueMessage .PASS3 s).2
        (Or.inr (Or.inl ⟨Or.inr (Or.inr rfl), h2.2⟩))).symm
    · exact WarningImpl_promoted env none message badValueMessage type s hwae
  rw [heq]
  refine ⟨rfl, Error_WarningCount env message badValueMessage _ s, ?_⟩
  intro hemit
  have hd : ¬ errorDropped env (promotedClass type) s := by
    rw [← Error_eq_self_iff env message badValueMessage]
    exact hemit
  rw [Error_of_not_dropped env message badValueMessage _ s hd]
  exact ⟨rfl, errorEmitted_wrote env message badValueMessage _ s,
    errorEmitted_ErrorCount env message badValueMessage _ s,
    errorEmitted_PreviousErrorLine env message badValueMessage _ s,
    errorEmitted_IsSkipErrors env message badValueMessage _ s⟩

/-- Witness of C8: the warning "w" of class `W_ALL`, reported with `WarningsAsErrors` set on
line 10 in pass 3 of 3, is written as an error and counted as one. -/
theorem warning_as_error_witness :
    ({ sampleEnv 3 10 with WarningsAsErrors := true } : Env).WarningsAsErrors = true ∧
    Warning { sampleEnv 3 10 with WarningsAsErrors := true } "w" none .W_ALL initState
      = Error { sampleEnv 3 10 with WarningsAsErrors := true } "w" none .ALL initState ∧
    (Warning { sampleEnv 3 10 with WarningsAsErrors := true } "w" none .W_ALL initState).cerr
      = ["main.asm(10): error: w\n"] ∧
    (Warning { sampleEnv 3 10 with WarningsAsErrors := true } "w" none .W_ALL
      initState).ErrorCount = 1 :=
  ⟨rfl,
    (warning_as_error { sampleEnv 3 10 with WarningsAsErrors := true } "w" none .W_ALL
      initState rfl).1,
    by decide, by decide⟩

/-! ## `strstr` and the loop of `suppressedById` -/

theorem strstr_some_length (needle : List Char) :
    ∀ (haystack found : List Char), strstr haystack needle = some found →
      found.length ≤ haystack.length ∧ needle.length ≤ found.length := by
  intro haystack
  induction haystack with
  | nil =>
    intro found h
    simp only [strstr] at h
    split_ifs at h with hn
    simp only [Option.some.injEq] at h
    subst h
    simp [hn]
  | cons c cs ih =>
    intro found h
    simp only [strstr] at h
    split_ifs at h with hp
    · simp only [Option.some.injEq] at h
      subst h
      rw [ List.isPrefixOf_iff_prefix] at hp
      exact ⟨le_refl _, hp.length_le⟩
    · obtain ⟨h1, h2⟩ := ih found h
      exact ⟨by simp only [List.length_cons]; omega, h2⟩

theorem suppressedByIdLoop_isSome (id : List Char) (hid : id ≠ []) :
    ∀ (fuel : Nat) (commentToCheck : List Char), commentToCheck.length < fuel →
      ∃ b, suppressedByIdLoop id fuel commentToCheck = some b := by
  intro fuel
  induction fuel with
  | zero =>
    intro c h
    omega
  | succ fuel ih =>
    intro c h
    simp only [suppressedByIdLoop]
    cases hs : strstr c id with
    | none => exact ⟨false, rfl⟩
    | some idPos =>
      simp only
      split_ifs
      · exact ⟨true, rfl⟩
      · apply ih
        obtain ⟨h1, h2⟩ := strstr_some_length id c idPos hs
        have hpos : 0 < id.length := List.length_pos.mpr hid
        rw [List.length_drop]
        omega

theorem suppressedById_isSome (env : Env) (id : String) (hid : id.data ≠ []) :
    ∃ b, suppressedById env id = some b := by
  unfold suppressedById
  cases env.eolComment with
  | none => exact ⟨false, rfl⟩
  | some comment =>
    have hlen : ¬ id.data.length = 0 := by
      rw [List.length_eq_zero]
      exact hid
    simp only [hlen, if_false]
    exact suppressedByIdLoop_isSome id.data hid _ _ (Nat.lt_succ_self _)

/-! ## `WarningById` with warnings turned into errors -/

/-- With `WarningsAsErrors` set, the three outcomes of `WarningById` for an id of the catalog, by
the answer of `suppressedById` and the `enabled` flag. -/
theorem promotion_after_gating (env : Env) (id : String) (badValueMessage : Option String)
    (type : EWStatus) (s : State) (entry : WarningEntry)
    (hwae : env.WarningsAsErrors = true) (hfind : find id s.w_texts = some entry) :
    (suppressedById env id = some true →
      WarningById env id badValueMessage type s = some s) ∧
    (suppressedById env id = some false → entry.enabled = false →
      WarningById env id badValueMessage type s = some s) ∧
    (suppressedById env id = some false → entry.enabled = true →
      WarningById env id badValueMessage type s
        = some (Error env entry.txt badValueMessage (promotedClass type) s)) := by
  refine ⟨?_, ?_, ?_⟩
  · intro hs
    unfold WarningById
    split_ifs <;> simp [hs]
  · intro hs he
    unfold WarningById
    split_ifs <;> simp [hs, hfind, he]
  · intro hs he
    unfold WarningById
    split_ifs with h1 h2
    · rw [h1.1]
      exact congrArg some ((Error_eq_self_iff env entry.txt badValueMessage .EARLY s).2
        (Or.inl ⟨rfl, h1.2⟩)).symm
    · rw [h2.1]
      exact congrArg some ((Error_eq_self_iff env entry.txt badValueMessage .PASS3 s).2
        (Or.inr (Or.inl ⟨Or.inr (Or.inr rfl), h2.2⟩))).symm
    · simp [hs, hfind, he, WarningImpl_promoted env (some id) entry.txt badValueMessage type s hwae]

/-- Counterexample to C9 as stated: with `WarningsAsErrors` set, in pass 3 of 3 on line 10,
`WarningById("abs", nullptr, W_ALL)` reports nothing when the id `abs` was disabled with
`-Wno-abs`, and nothing when the line carries the annotation `; abs-ok`, although the error
path with the same text and the mapped class `ALL` would emit the error in both cases. -/
theorem promoted_warning_dropped_by_catalog_and_annotation :
    WarningById { sampleEnv 3 10 with WarningsAsErrors := true } "abs" none .W_ALL
        (CliWoption (sampleEnv 0 0) "no-abs" initState)
      = some (CliWoption (sampleEnv 0 0) "no-abs" initState) ∧
    (Error { sampleEnv 3 10 with WarningsAsErrors := true }
        "the `abs` is now absolute value operator, if you are using it as label, please rename"
        none .ALL (CliWoption (sampleEnv 0 0) "no-abs" initState)).ErrorCount
      = (CliWoption (sampleEnv 0 0) "no-abs" initState).ErrorCount + 1 ∧
    WarningById { sampleEnv 3 10 with WarningsAsErrors := true, eolComment := some "; abs-ok" }
        "abs" none .W_ALL initState
      = some initState ∧
    (Error { sampleEnv 3 10 with WarningsAsErrors := true, eolComment := some "; abs-ok" }
        "the `abs` is now absolute value operator, if you are using it as label, please rename"
        none .ALL initState).ErrorCount
      = initState.ErrorCount + 1 := by
  decide

/-! ## The `-W` option on an id of the catalog -/

theorem find_isSome_of_mem (id : String) (l : List (String × WarningEntry))
    (h : id ∈ l.map (fun e => e.1)) : ∃ entry, find id l = some entry := by
  induction l with
  | nil => simp at h
  | cons kv rest ih =>
    obtain ⟨key, entry⟩ := kv
    simp only [find]
    split_ifs with hk
    · exact ⟨entry, rfl⟩
    · apply ih
      simp only [List.map_cons, List.mem_cons] at h
      rcases h with h | h
      · exact absurd h hk
      · exact h

theorem setEnabled_spec (id : String) (enable : Bool) (l : List (String × WarningEntry))
    (entry : WarningEntry) (h : find id l = some entry) :
    ∃ updated, setEnabled id enable l = some updated ∧
      find id updated = some { entry with enabled := enable } ∧
      (∀ other, other ≠ id → find other updated = find other l) ∧
      updated.map (fun e => (e.1, e.2.txt, e.2.help)) = l.map (fun e => (e.1, e.2.txt, e.2.help)) ∧
      setEnabled id entry.enabled updated = some l := by
  induction l with
  | nil => simp [find] at h
  | cons kv rest ih =>
    obtain ⟨key, e0⟩ := kv
    simp only [find] at h
    by_cases hk : id = key
    · rw [if_pos hk] at h
      simp only [Option.some.injEq] at h
      subst h
      refine ⟨(key, { e0 with enabled := enable }) :: rest, by simp [setEnabled, hk],
        by simp [find, hk], ?_, by simp, by simp [setEnabled, hk]⟩
      intro other ho
      have : ¬ other = key := by
        rw [← hk]
        exact ho
      simp [find, this]
    · rw [if_neg hk] at h
      obtain ⟨u, h1, h2, h3, h4, h5⟩ := ih h
      refine ⟨(key, e0) :: u, by simp [setEnabled, hk, h1], by simp [find, hk, h2], ?_,
        by simp [h4], by simp [setEnabled, hk, h5]⟩
      intro other ho
      simp only [find]
      split_ifs
      · rfl
      · exact h3 other ho

theorem CliWoption_disable (env : Env) (id : String) (s : State) (updated : List (String × WarningEntry))
    (h : setEnabled id false s.w_texts = some updated) :
    CliWoption env ("no-" ++ id) s = { s with w_texts := updated } := by
  have hdata : ("no-" ++ id).data = 'n' :: 'o' :: '-' :: id.data := by
    rw [String.data_append]
    rfl
  have hno : "no-".data = ['n', 'o', '-'] := rfl
  unfold CliWoption
  simp only [hdata, hno, strncmp, List.drop_succ_cons, List.drop_zero]
  simp [h]

theorem CliWoption_enable (env : Env) (id : String) (s : State) (updated : List (String × WarningEntry))
    (hne : id.data ≠ []) (hno : strncmp "no-".data id.data 3 ≠ 0)
    (h : setEnabled id true s.w_texts = some updated) :
    CliWoption env id s = { s with w_texts := updated } := by
  unfold CliWoption
  simp [hne, hno, h]

theorem warningIds_plain :
    ∀ id ∈ warningIds, id.data ≠ [] ∧ strncmp "no-".data id.data 3 ≠ 0 := by
  decide

theorem WarningById_disabled (env : Env) (id : String) (badValueMessage : Option String)
    (type : EWStatus) (s : State) (entry : WarningEntry) (hid : id.data ≠ [])
    (hfind : find id s.w_texts = some entry) (hoff : entry.enabled = false) :
    WarningById env id badValueMessage type s = some s := by
  obtain ⟨b, hb⟩ := suppressedById_isSome env id hid
  unfold WarningById
  split_ifs
  · rfl
  · rfl
  · cases b <;> simp [hb, hfind, hoff]

/-- C10. For every id `X` of the catalog and every state whose catalog is the registry up to
the `enabled` flags: `CliWoption("no-" ++ X)` changes nothing but the entry of `X`, whose
`enabled` flag becomes false (text and help stay, every other entry stays, counters,
suppression state and sinks stay, nothing is reported), and afterwards `WarningById(X, ...)`
is dropped in every environment; `CliWoption(X)` then changes nothing but the `enabled` flag
of `X`, which becomes true; when `X` was enabled before the disable the state is back to what
it was, so that `WarningById(X, ...)` does exactly what it did before the disable. -/
theorem toggle_catalog_id (X : String) (hX : X ∈ warningIds) (s : State)
    (hshape : catalogShape s) (env1 env2 : Env) :
    (find X s.w_texts).isSome = true ∧
    CliWoption env1 ("no-" ++ X) s
      = { s with w_texts := (CliWoption env1 ("no-" ++ X) s).w_texts } ∧
    find X (CliWoption env1 ("no-" ++ X) s).w_texts
      = (find X s.w_texts).map (fun e => { e with enabled := false }) ∧
    (∀ Y, Y ≠ X → find Y (CliWoption env1 ("no-" ++ X) s).w_texts = find Y s.w_texts) ∧
    catalogShape (CliWoption env1 ("no-" ++ X) s) ∧
    (∀ (env : Env) (badValueMessage : Option String) (type : EWStatus),
      WarningById env X badValueMessage type (CliWoption env1 ("no-" ++ X) s)
        = some (CliWoption env1 ("no-" ++ X) s)) ∧
    CliWoption env2 X (CliWoption env1 ("no-" ++ X) s)
      = { s with w_texts := (CliWoption env2 X (CliWoption env1 ("no-" ++ X) s)).w_texts } ∧
    find X (CliWoption env2 X (CliWoption env1 ("no-" ++ X) s)).w_texts
      = (find X s.w_texts).map (fun e => { e with enabled := true }) ∧
    (∀ Y, Y ≠ X →
      find Y (CliWoption env2 X (CliWoption env1 ("no-" ++ X) s)).w_texts = find Y s.w_texts) ∧
    catalogShape (CliWoption env2 X (CliWoption env1 ("no-" ++ X) s)) ∧
    ((find X s.w_texts).map (fun e => e.enabled) = some true →
      CliWoption env2 X (CliWoption env1 ("no-" ++ X) s) = s ∧
      ∀ (env : Env) (badValueMessage : Option String) (type : EWStatus),
        WarningById env X badValueMessage type
            (CliWoption env2 X (CliWoption env1 ("no-" ++ X) s))
          = WarningById env X badValueMessage type s) := by
  obtain ⟨hne, hno⟩ := warningIds_plain X hX
  have hkey : X ∈ s.w_texts.map (fun e => e.1) := by
    have h1 : s.w_texts.map (fun e => e.1)
        = (s.w_texts.map (fun e => (e.1, e.2.txt, e.2.help))).map (fun t => t.1) := by
      rw [List.map_map]
      rfl
    have h2 : w_texts.map (fun e => e.1)
        = (w_texts.map (fun e => (e.1, e.2.txt, e.2.help))).map (fun t => t.1) := by
      rw [List.map_map]
      rfl
    rw [h1, hshape, ← h2]
    exact hX
  obtain ⟨entry, hfind⟩ := find_isSome_of_mem X s.w_texts hkey
  obtain ⟨offL, hoff, hfoff, hothers, hshapeOff, hback⟩ :=
    setEnabled_spec X false s.w_texts entry hfind
  obtain ⟨onL, hon, hfon, hothers2, hshapeOn, -⟩ :=
    setEnabled_spec X true offL { entry with enabled := false } hfoff
  have hOff : CliWoption env1 ("no-" ++ X) s = { s with w_texts := offL } :=
    CliWoption_disable env1 X s offL hoff
  have hOn : CliWoption env2 X { s with w_texts := offL } = { s with w_texts := onL } :=
    CliWoption_enable env2 X { s with w_texts := offL } onL hne hno hon
  rw [hOff, hOn]
  refine ⟨by rw [hfind]; rfl, rfl, ?_, hothers, ?_, ?_, rfl, ?_, ?_, ?_, ?_⟩
  · rw [hfind]
    exact hfoff
  · unfold catalogShape
    rw [← hshape]
    exact hshapeOff
  · intro env badValueMessage type
    exact WarningById_disabled env X badValueMessage type { s with w_texts := offL }
      { entry with enabled := false } hne hfoff rfl
  · rw [hfind]
    exact hfon
  · intro Y hY
    exact (hothers2 Y hY).trans (hothers Y hY)
  · unfold catalogShape
    rw [← hshape]
    exact hshapeOn.trans hshapeOff
  · intro hen
    rw [hfind] at hen
    simp only [Option.map_some', Option.some.injEq] at hen
    rw [hen, hon] at hback
    simp only [Option.some.injEq] at hback
    rw [hback]
    exact ⟨rfl, fun _ _ _ => rfl⟩

/-- Witness of C10: the id `abs` from the initial state. In pass 3 of 3 the warning is written
before the disable, dropped after `-Wno-abs`, and written with the same text after `-Wabs`. -/
theorem toggle_catalog_id_witness :
    "abs" ∈ warningIds ∧ catalogShape initState ∧
    (WarningById (sampleEnv 3 10) "abs" none .W_ALL initState).map (fun t => t.cerr)
      = some ["main.asm(10): warning[abs]: the `abs` is now absolute value operator, if you are using it as label, please rename\n"] ∧
    WarningById (sampleEnv 3 10) "abs" none .W_ALL (CliWoption (sampleEnv 0 0) "no-abs" initState)
      = some (CliWoption (sampleEnv 0 0) "no-abs" initState) ∧
    (CliWoption (sampleEnv 0 0) "no-abs" initState).cerr = [] ∧
    CliWoption (sampleEnv 0 0) "abs" (CliWoption (sampleEnv 0 0) "no-abs" initState)
      = initState :=
  ⟨by decide, rfl, by decide,
    (toggle_catalog_id "abs" (by decide) initState rfl (sampleEnv 0 0) (sampleEnv 0 0)).2.2.2.2.2.1
      (sampleEnv 3 10) none .W_ALL,
    by decide,
    ((toggle_catalog_id "abs" (by decide) initState rfl (sampleEnv 0 0)
      (sampleEnv 0 0)).2.2.2.2.2.2.2.2.2.2 (by decide)).1⟩

/-! ## The `-W` option on bad input -/

theorem Error_w_texts (env : Env) (message : String) (badValueMessage : Option String)
    (type : EStatus) (s : State) :
    (Error env message badValueMessage type s).w_texts = s.w_texts := by
  rw [Error_eq]
  split_ifs
  · rfl
  · unfold errorEmitted outputErrorLine ExitASM
    split_ifs <;> rfl

theorem WarningImpl_not_promoted (env : Env) (id : Option String) (message : String)
    (badValueMessage : Option String) (type : EWStatus) (s : State)
    (hwae : env.WarningsAsErrors = false) :
    WarningImpl env id message badValueMessage type s
      = warningEmitted env id message badValueMessage s := by
  unfold WarningImpl warningEmitted
  simp [hwae]

theorem WarningImpl_w_texts (env : Env) (id : Option String) (message : String)
    (badValueMessage : Option String) (type : EWStatus) (s : State) :
    (WarningImpl env id message badValueMessage type s).w_texts = s.w_texts := by
  cases hwae : env.WarningsAsErrors
  · rw [WarningImpl_not_promoted env id message badValueMessage type s hwae]
    unfold warningEmitted outputErrorLine
    rfl
  · rw [WarningImpl_promoted env id message badValueMessage type s hwae]
    exact Error_w_texts env message badValueMessage _ s

theorem Warning_w_texts (env : Env) (message : String) (badValueMessage : Option String)
    (type : EWStatus) (s : State) :
    (Warning env message badValueMessage type s).w_texts = s.w_texts := by
  unfold Warning
  split_ifs
  · rfl
  · rfl
  · exact WarningImpl_w_texts env none message badValueMessage type s

theorem find_eq_none_iff (id : String) (l : List (String × WarningEntry)) :
    find id l = none ↔ id ∉ l.map (fun e => e.1) := by
  induction l with
  | nil => simp [find]
  | cons kv rest ih =>
    obtain ⟨key, entry⟩ := kv
    simp only [find, List.map_cons, List.mem_cons, not_or]
    split_ifs with hk
    · simp [hk]
    · simp [hk, ih]

theorem setEnabled_eq_none_iff (id : String) (enable : Bool) (l : List (String × WarningEntry)) :
    setEnabled id enable l = none ↔ find id l = none := by
  induction l with
  | nil => simp [setEnabled, find]
  | cons kv rest ih =>
    obtain ⟨key, entry⟩ := kv
    simp only [setEnabled, find]
    split_ifs with hk
    · simp
    · simp [ih]

theorem catalogShape_keys (s : State) (hshape : catalogShape s) :
    s.w_texts.map (fun e => e.1) = warningIds := by
  have h1 : s.w_texts.map (fun e => e.1)
      = (s.w_texts.map (fun e => (e.1, e.2.txt, e.2.help))).map (fun t => t.1) := by
    rw [List.map_map]
    rfl
  have h2 : w_texts.map (fun e => e.1)
      = (w_texts.map (fun e => (e.1, e.2.txt, e.2.help))).map (fun t => t.1) := by
    rw [List.map_map]
    rfl
  unfold warningIds
  rw [h1, hshape, ← h2]

theorem char_toNat_inj (a b : Char) (h : a.toNat = b.toNat) : a = b :=
  Char.ext (UInt32.ext h)

theorem char_sub_ne_zero (a b : Char) (h : ¬ a = b) : (a.toNat : Int) - (b.toNat : Int) ≠ 0 := by
  intro h0
  apply h
  apply char_toNat_inj
  omega

theorem strncmp_no (l : List Char) :
    strncmp "no-".data l 3 = 0 ↔ "no-".data.isPrefixOf l = true := by
  have hno : "no-".data = ['n', 'o', '-'] := rfl
  have key : ∀ (x y : Char), ¬ x = y → ¬ ((x.toNat : Int) - (y.toNat : Int) = 0) :=
    fun x y h => char_sub_ne_zero x y h
  rw [hno]
  rcases l with _ | ⟨a, _ | ⟨b, _ | ⟨c, t⟩⟩⟩
  · simp [strncmp, List.isPrefixOf]
  · by_cases ha : 'n' = a
    · subst ha
      simp [strncmp, List.isPrefixOf]
    · have h := key _ _ ha
      simp [strncmp, List.isPrefixOf, ha] at h ⊢
      exact h
  · by_cases ha : 'n' = a
    · subst ha
      by_cases hb : 'o' = b
      · subst hb
        simp [strncmp, List.isPrefixOf]
      · have h := key _ _ hb
        simp [strncmp, List.isPrefixOf, hb] at h ⊢
        exact h
    · have h := key _ _ ha
      simp [strncmp, List.isPrefixOf, ha] at h ⊢
      exact h
  · by_cases ha : 'n' = a
    · subst ha
      by_cases hb : 'o' = b
      · subst hb
        by_cases hc : '-' = c
        · subst hc
          simp [strncmp, List.isPrefixOf]
        · have h := key _ _ hc
          simp [strncmp, List.isPrefixOf, hc] at h ⊢
          exact h
      · have h := key _ _ hb
        simp [strncmp, List.isPrefixOf, hb] at h ⊢
        exact h
    · have h := key _ _ ha
      simp [strncmp, List.isPrefixOf, ha] at h ⊢
      exact h

/-- C11. `CliWoption` on bad input reports a diagnostic of its own and leaves the catalog as it
is. The empty option text is the call `Error("no argument after -W", ...)`. A non-empty option
text whose id (the text without one leading `no-`) is not an id of the catalog is the call
`Warning("unknown warning id in -W option", id, ...)` with that id as the bad value. The class
is `EARLY` / `W_EARLY` when `pass == 0` and `PASS3` / `W_PASS3` otherwise. In both cases
`w_texts`, and with it every `enabled` flag, is unchanged. -/
theorem CliWoption_bad_option (env : Env) (option : String) (s : State)
    (hshape : catalogShape s) :
    (option.data = [] →
      CliWoption env option s
        = Error env "no argument after -W" (if env.pass = 0 then none else some env.bp)
            (if env.pass = 0 then EStatus.EARLY else EStatus.PASS3) s) ∧
    (option.data ≠ [] → optionId option ∉ warningIds →
      CliWoption env option s
        = Warning env "unknown warning id in -W option" (some (optionId option))
            (if env.pass = 0 then EWStatus.W_EARLY else EWStatus.W_PASS3) s) ∧
    (option.data = [] ∨ optionId option ∉ warningIds →
      (CliWoption env option s).w_texts = s.w_texts) := by
  have hempty : option.data = [] →
      CliWoption env option s
        = Error env "no argument after -W" (if env.pass = 0 then none else some env.bp)
            (if env.pass = 0 then EStatus.EARLY else EStatus.PASS3) s := by
    intro h
    unfold CliWoption
    rw [if_pos h]
  have hunknown : option.data ≠ [] → optionId option ∉ warningIds →
      CliWoption env option s
        = Warning env "unknown warning id in -W option" (some (optionId option))
            (if env.pass = 0 then EWStatus.W_EARLY else EWStatus.W_PASS3) s := by
    intro hne hid
    have hnone : ∀ b, setEnabled (optionId option) b s.w_texts = none := by
      intro b
      rw [setEnabled_eq_none_iff, find_eq_none_iff, catalogShape_keys s hshape]
      exact hid
    unfold CliWoption
    rw [if_neg hne]
    by_cases hp : "no-".data.isPrefixOf option.data = true
    · have h0 : strncmp "no-".data option.data 3 = 0 := (strncmp_no option.data).2 hp
      have hid0 : optionId option = ⟨option.data.drop 3⟩ := by
        unfold optionId
        rw [if_pos hp]
      simp only [h0, ne_eq, not_true_eq_false, decide_False, Bool.false_eq_true, if_false]
      rw [← hid0, hnone]
    · have h0 : ¬ strncmp "no-".data option.data 3 = 0 := fun h => hp ((strncmp_no option.data).1 h)
      have hid0 : optionId option = option := by
        unfold optionId
        rw [if_neg hp]
      simp only [h0, ne_eq, not_false_eq_true, decide_True, if_true]
      rw [hid0] at hnone
      rw [hnone, hid0]
  refine ⟨hempty, hunknown, ?_⟩
  rintro (h | h)
  · rw [hempty h]
    exact Error_w_texts env _ _ _ s
  · by_cases hne : option.data = []
    · rw [hempty hne]
      exact Error_w_texts env _ _ _ s
    · rw [hunknown hne h]
      exact Warning_w_texts env _ _ _ s

/-- Witness of C11: `-Wno-such` and `-W` without text on the command line (`pass == 0`), from
the initial state. -/
theorem CliWoption_bad_option_witness :
    catalogShape initState ∧ ("no-such" : String).data ≠ [] ∧
    optionId "no-such" = "such" ∧ optionId "no-such" ∉ warningIds ∧
    CliWoption (sampleEnv 0 0) "no-such" initState
      = Warning (sampleEnv 0 0) "unknown warning id in -W option" (some "such") .W_EARLY
          initState ∧
    (CliWoption (sampleEnv 0 0) "no-such" initState).cerr
      = ["warning: unknown warning id in -W option: such\n"] ∧
    (CliWoption (sampleEnv 0 0) "" initState).cerr = ["error: no argument after -W\n"] ∧
    (CliWoption (sampleEnv 0 0) "no-such" initState).w_texts = initState.w_texts :=
  ⟨rfl, by decide, by decide, by decide,
    (CliWoption_bad_option (sampleEnv 0 0) "no-such" initState rfl).2.1 (by decide) (by decide),
    by decide, by decide,
    (CliWoption_bad_option (sampleEnv 0 0) "no-such" initState rfl).2.2 (Or.inr (by decide))⟩

/-! ## The annotation `id-ok` -/

theorem suppressedById_eolComment (env1 env2 : Env) (id : String)
    (h : env1.eolComment = env2.eolComment) : suppressedById env1 id = suppressedById env2 id := by
  unfold suppressedById
  rw [h]

theorem suppressedById_catalog_pairs :
    ∀ X ∈ warningIds, ∀ Y ∈ warningIds,
      suppressedById { sampleEnv 3 10 with eolComment := some (X ++ "-ok") } Y
        = some (decide (Y = X)) := by
  decide

theorem WarningImpl_eolComment (env : Env) (comment : Option String) (id : Option String)
    (message : String) (badValueMessage : Option String) (type : EWStatus) (s : State) :
    WarningImpl { env with eolComment := comment } id message badValueMessage type s
      = WarningImpl env id message badValueMessage type s := by
  rfl

/-- C12. When the annotation of the current line is exactly `X ++ "-ok"` for an id `X` of the
catalog, `suppressedById(X)` is true and `WarningById(X, ...)` is dropped in every state, while
for every other id `Y` of the catalog `suppressedById(Y)` is false and `WarningById(Y, ...)`
does what it does on a line without annotation. Without annotation `suppressedById` is false
for every id. -/
theorem annotation_id_ok (X : String) (hX : X ∈ warningIds) (env : Env)
    (hann : env.eolComment = some (X ++ "-ok")) :
    suppressedById env X = some true ∧
    (∀ (badValueMessage : Option String) (type : EWStatus) (s : State),
      WarningById env X badValueMessage type s = some s) ∧
    (∀ Y ∈ warningIds, Y ≠ X →
      suppressedById env Y = some false ∧
      ∀ (badValueMessage : Option String) (type : EWStatus) (s : State),
        WarningById env Y badValueMessage type s
          = WarningById { env with eolComment := none } Y badValueMessage type s) ∧
    (∀ (env0 : Env) (id : String), env0.eolComment = none →
      suppressedById env0 id = some false) := by
  have hpair : ∀ Y ∈ warningIds, suppressedById env Y = some (decide (Y = X)) := by
    intro Y hY
    rw [suppressedById_eolComment env { sampleEnv 3 10 with eolComment := some (X ++ "-ok") } Y
      hann]
    exact suppressedById_catalog_pairs X hX Y hY
  have hnone : ∀ (env0 : Env) (id : String), env0.eolComment = none →
      suppressedById env0 id = some false := by
    intro env0 id h
    unfold suppressedById
    rw [h]
  have hself : suppressedById env X = some true := by
    rw [hpair X hX]
    simp
  refine ⟨hself, ?_, ?_, hnone⟩
  · intro badValueMessage type s
    unfold WarningById
    split_ifs <;> simp [hself]
  · intro Y hY hne
    have hY0 : suppressedById env Y = some false := by
      rw [hpair Y hY]
      simp [hne]
    refine ⟨hY0, ?_⟩
    intro badValueMessage type s
    have hY1 : suppressedById { env with eolComment := none } Y = some false :=
      hnone _ Y rfl
    unfold WarningById
    rw [hY0, hY1]
    simp only [WarningImpl_eolComment]

/-- Witness of C12: the annotation `abs-ok` in pass 3 of 3. The warning `abs` is dropped, the
warning `out0` is written. -/
theorem annotation_id_ok_witness :
    "abs" ∈ warningIds ∧
    ({ sampleEnv 3 10 with eolComment := some "abs-ok" } : Env).eolComment
      = some ("abs" ++ "-ok") ∧
    suppressedById { sampleEnv 3 10 with eolComment := some "abs-ok" } "abs" = some true ∧
    WarningById { sampleEnv 3 10 with eolComment := some "abs-ok" } "abs" none .W_ALL initState
      = some initState ∧
    (WarningById { sampleEnv 3 10 with eolComment := some "abs-ok" } "out0" none .W_ALL
        initState).map (fun t => t.cerr)
      = some ["main.asm(10): warning[out0]: 'out (c),0' is unstable, on CMOS based chips it does `out (c),255`\n"] :=
  ⟨by decide, by decide,
    (annotation_id_ok "abs" (by decide) { sampleEnv 3 10 with eolComment := some "abs-ok" }
      (by decide)).1,
    (annotation_id_ok "abs" (by decide) { sampleEnv 3 10 with eolComment := some "abs-ok" }
      (by decide)).2.1 none .W_ALL initState,
    by decide⟩

theorem strstr_some_split (needle : List Char) :
    ∀ (haystack found : List Char), strstr haystack needle = some found →
      found <:+ haystack ∧ needle <+: found := by
  intro haystack
  induction haystack with
  | nil =>
    intro found h
    simp only [strstr] at h
    split_ifs at h with hn
    simp only [Option.some.injEq] at h
    subst h
    simp [hn]
  | cons c cs ih =>
    intro found h
    simp only [strstr] at h
    split_ifs at h with hp
    · simp only [Option.some.injEq] at h
      subst h
      rw [ List.isPrefixOf_iff_prefix] at hp
      exact ⟨List.suffix_refl _, hp⟩
    · obtain ⟨h1, h2⟩ := ih found h
      exact ⟨h1.trans (List.suffix_cons c cs), h2⟩

theorem strstr_isSome_iff (needle : List Char) :
    ∀ haystack : List Char, (strstr haystack needle).isSome = true ↔ needle <:+: haystack := by
  intro haystack
  induction haystack with
  | nil =>
    simp only [strstr]
    split_ifs with hn
    · simp [hn]
    · simp [hn]
  | cons c cs ih =>
    simp only [strstr]
    rw [List.infix_cons_iff, ← ih]
    split_ifs with hp
    · rw [ List.isPrefixOf_iff_prefix] at hp
      simp [hp]
    · rw [ List.isPrefixOf_iff_prefix] at hp
      simp [hp]

/-- When the loop of `suppressedById` answers true, the id followed by `-ok` occurs in the text
the loop was started with. -/
theorem suppressedByIdLoop_true (id : List Char) :
    ∀ (fuel : Nat) (commentToCheck : List Char),
      suppressedByIdLoop id fuel commentToCheck = some true →
      (id ++ ['-', 'o', 'k']) <:+: commentToCheck := by
  intro fuel
  induction fuel with
  | zero =>
    intro c h
    simp [suppressedByIdLoop] at h
  | succ fuel ih =>
    intro c h
    simp only [suppressedByIdLoop] at h
    cases hs : strstr c id with
    | none =>
      rw [hs] at h
      simp at h
    | some idPos =>
      rw [hs] at h
      simp only at h
      obtain ⟨hsuf, hpre⟩ := strstr_some_split id c idPos hs
      obtain ⟨rest, hrest⟩ := hpre
      have hdrop : idPos.drop id.length = rest := by
        rw [← hrest]
        simp
      rw [hdrop] at h
      split_ifs at h with hok
      · have hr : rest = ['-', 'o', 'k'] ++ rest.drop 3 := by
          conv_lhs => rw [← List.take_append_drop 3 rest]
          rw [hok]
        have hin : (id ++ ['-', 'o', 'k']) <:+: idPos := by
          refine ⟨[], rest.drop 3, ?_⟩
          rw [← hrest]
          conv_rhs => rw [hr]
          simp
        exact hin.trans hsuf.isInfix
      · have h1 := ih rest h
        have h2 : rest <:+ idPos := ⟨id, hrest⟩
        exact h1.trans (h2.trans hsuf).isInfix

/-- The answer true of `suppressedById(id)` is sound: the annotation contains the id followed
by `-ok`. -/
theorem suppressedById_true (env : Env) (id : String) (h : suppressedById env id = some true) :
    ∃ comment, env.eolComment = some comment ∧ (id ++ "-ok").data <:+: comment.data := by
  unfold suppressedById at h
  cases hc : env.eolComment with
  | none =>
    rw [hc] at h
    simp at h
  | some comment =>
    rw [hc] at h
    simp only at h
    split_ifs at h
    exact ⟨comment, rfl, suppressedByIdLoop_true id.data _ _ h⟩

/-- C13, the code at the failing input. On a line with the annotation `fwdrefwdref-ok`, which
contains `fwdref-ok` (from its sixth character on), `suppressedById("fwdref")` is false and the
warning `fwdref` is written; the same with `trdext` and `trdextrdext-ok`. The loop resumes
behind the occurrence of the id that is not followed by `-ok` and so steps over the
occurrence that is. -/
theorem suppressedById_overlapping_id :
    ("fwdref" ++ "-ok").data <:+: ("fwdrefwdref-ok" : String).data ∧
    suppressedById { sampleEnv 3 10 with eolComment := some "fwdrefwdref-ok" } "fwdref"
      = some false ∧
    (WarningById { sampleEnv 3 10 with eolComment := some "fwdrefwdref-ok" } "fwdref" none
        .W_ALL initState).map (fun t => t.cerr)
      = some ["main.asm(10): warning[fwdref]: forward reference of symbol\n"] ∧
    ("trdext" ++ "-ok").data <:+: ("trdextrdext-ok" : String).data ∧
    suppressedById { sampleEnv 3 10 with eolComment := some "trdextrdext-ok" } "trdext"
      = some false := by
  refine ⟨⟨"fwdre".data, [], rfl⟩, by decide, by decide, ⟨"trdex".data, [], rfl⟩, by decide⟩

/-! ## The legacy check `warningNotSuppressed` -/

theorem ok_word_iff (comment : List Char) :
    (∃ rest : List Char, comment = 'o' :: 'k' :: rest ∧
        (rest = [] ∨ ∃ c tail, rest = c :: tail ∧ c.isAlphanum = false)) ↔
      (comment.get? 0 = some 'o' ∧ comment.get? 1 = some 'k' ∧
        isalnum (comment.get? 2) = false) := by
  rcases comment with _ | ⟨a, _ | ⟨b, _ | ⟨c, t⟩⟩⟩
  · constructor
    · rintro ⟨rest, h, -⟩
      cases h
    · rintro ⟨h, -⟩
      cases h
  · constructor
    · rintro ⟨rest, h, -⟩
      cases h
    · rintro ⟨-, h, -⟩
      cases h
  · constructor
    · rintro ⟨rest, h, -⟩
      cases h
      exact ⟨rfl, rfl, rfl⟩
    · rintro ⟨ha, hb, -⟩
      cases ha
      cases hb
      exact ⟨[], rfl, Or.inl rfl⟩
  · constructor
    · rintro ⟨rest, h, hr⟩
      cases h
      rcases hr with hr | ⟨c1, tail, hr, hc⟩
      · cases hr
      · cases hr
        exact ⟨rfl, rfl, hc⟩
    · rintro ⟨ha, hb, hc⟩
      cases ha
      cases hb
      exact ⟨c :: t, rfl, Or.inr ⟨c, t, rfl, hc⟩⟩

theorem okIsFirstWord_iff (eolText : String) :
    okIsFirstWord eolText ↔
      (((eolText.data.dropWhile (fun c => c == ';' || c == '/')).dropWhile
          (fun c => c == ' ' || c == '\t')).get? 0 = some 'o' ∧
        ((eolText.data.dropWhile (fun c => c == ';' || c == '/')).dropWhile
          (fun c => c == ' ' || c == '\t')).get? 1 = some 'k' ∧
        isalnum (((eolText.data.dropWhile (fun c => c == ';' || c == '/')).dropWhile
          (fun c => c == ' ' || c == '\t')).get? 2) = false) :=
  ok_word_iff _

/-- C16. `warningNotSuppressed(alsoFake)` is true when there is no annotation. With an
annotation it is false exactly when (a) the annotation, behind its leading run of `;` and `/`
and then its leading run of spaces and tabs, starts with `ok` followed by the end of the text
or a character that is not alphanumeric, or (b) `alsoFake` is set and `fake` occurs somewhere
in the annotation. So `warningNotSuppressed(true)` implies `warningNotSuppressed(false)`, and
without `ok` as the first word `warningNotSuppressed(false)` is true. -/
theorem warningNotSuppressed_spec (env : Env) (alsoFake : Bool) :
    (env.eolComment = none → warningNotSuppressed env alsoFake = true) ∧
    (∀ eolText, env.eolComment = some eolText →
      (warningNotSuppressed env alsoFake = false ↔
        okIsFirstWord eolText ∨ (alsoFake = true ∧ "fake".data <:+: eolText.data))) ∧
    (warningNotSuppressed env true = true → warningNotSuppressed env false = true) ∧
    (∀ eolText, env.eolComment = some eolText → ¬ okIsFirstWord eolText →
      warningNotSuppressed env false = true) := by
  have hiff : ∀ (fake : Bool) (eolText : String), env.eolComment = some eolText →
      (warningNotSuppressed env fake = false ↔
        okIsFirstWord eolText ∨ (fake = true ∧ "fake".data <:+: eolText.data)) := by
    intro fake eolText h
    rw [okIsFirstWord_iff, ← strstr_isSome_iff]
    unfold warningNotSuppressed
    rw [h]
    simp only []
    split_ifs with h1 h2
    · exact iff_of_true rfl (Or.inl h1)
    · constructor
      · intro hn
        refine Or.inr ⟨h2, ?_⟩
        cases hs : strstr eolText.data "fake".data with
        | none =>
          rw [hs] at hn
          cases hn
        | some found => rfl
      · rintro (hp | ⟨-, hs⟩)
        · exact absurd hp h1
        · cases hs1 : strstr eolText.data "fake".data with
          | none =>
            rw [hs1] at hs
            cases hs
          | some found => rfl
    · constructor
      · intro hn
        cases hn
      · rintro (hp | ⟨hf, -⟩)
        · exact absurd hp h1
        · exact absurd hf h2
  refine ⟨?_, hiff alsoFake, ?_, ?_⟩
  · intro h
    unfold warningNotSuppressed
    rw [h]
  · intro h
    cases hc : env.eolComment with
    | none =>
      unfold warningNotSuppressed
      rw [hc]
    | some eolText =>
      by_contra hf
      rw [Bool.not_eq_true, hiff false eolText hc] at hf
      have ht : warningNotSuppressed env true = false := by
        rw [hiff true eolText hc]
        rcases hf with hf | hf
        · exact Or.inl hf
        · simp at hf
      rw [ht] at h
      simp at h
  · intro eolText hc hno
    by_contra hf
    rw [Bool.not_eq_true, hiff false eolText hc] at hf
    rcases hf with hf | hf
    · exact hno hf
    · simp at hf

/-- Witness of C16: `; ok` and `;ok, fine` suppress, `; okay` and `; not ok` do not, `; a fake
one` suppresses only with `alsoFake`. -/
theorem warningNotSuppressed_spec_witness :
    ({ sampleEnv 3 10 with eolComment := some "; not ok" } : Env).eolComment = some "; not ok" ∧
    ¬ okIsFirstWord "; not ok" ∧
    warningNotSuppressed { sampleEnv 3 10 with eolComment := some "; not ok" } false = true ∧
    warningNotSuppressed { sampleEnv 3 10 with eolComment := some "; ok" } false = false ∧
    warningNotSuppressed { sampleEnv 3 10 with eolComment := some ";ok, fine" } true = false ∧
    warningNotSuppressed { sampleEnv 3 10 with eolComment := some "; okay" } true = true ∧
    warningNotSuppressed { sampleEnv 3 10 with eolComment := some "; a fake one" } true = false ∧
    warningNotSuppressed { sampleEnv 3 10 with eolComment := some "; a fake one" } false = true ∧
    warningNotSuppressed (sampleEnv 3 10) true = true :=
  ⟨rfl, by rw [okIsFirstWord_iff]; decide,
    (warningNotSuppressed_spec { sampleEnv 3 10 with eolComment := some "; not ok" } false).2.2.2
      "; not ok" rfl (by rw [okIsFirstWord_iff]; decide),
    by decide, by decide, by decide, by decide, by decide, by decide⟩

/-! ## Counters and the frame of a warning -/

theorem errorEmitted_emittedAsError (env : Env) (message : String)
    (badValueMessage : Option String) (type : EStatus) (s : State) :
    emittedAsError env (errorLines env message badValueMessage) s
      (errorEmitted env message badValueMessage type s) :=
  ⟨errorEmitted_wrote env message badValueMessage type s,
    errorEmitted_ErrorCount env message badValueMessage type s,
    errorEmitted_WarningCount env message badValueMessage type s⟩

theorem warningEmitted_emittedAsWarning (env : Env) (id : Option String) (message : String)
    (badValueMessage : Option String) (s : State) :
    emittedAsWarning env (warningLines env id message badValueMessage) s
      (warningEmitted env id message badValueMessage s) := by
  unfold emittedAsWarning wroteDiagnostic warningEmitted outputErrorLine
  exact ⟨⟨rfl, rfl⟩, rfl, rfl, rfl, rfl⟩

theorem warningEmitted_w_texts (env : Env) (id : Option String) (message : String)
    (badValueMessage : Option String) (s : State) :
    (warningEmitted env id message badValueMessage s).w_texts = s.w_texts := rfl

theorem Error_cases (env : Env) (message : String) (badValueMessage : Option String)
    (type : EStatus) (s : State) :
    Error env message badValueMessage type s = s ∨
    emittedAsError env (errorLines env message badValueMessage) s
      (Error env message badValueMessage type s) := by
  rw [Error_eq]
  split_ifs
  · exact Or.inl rfl
  · exact Or.inr (errorEmitted_emittedAsError env message badValueMessage type s)

theorem Warning_eq (env : Env) (message : String) (badValueMessage : Option String)
    (type : EWStatus) (s : State) :
    Warning env message badValueMessage type s =
      if warningGated env type then s
      else if env.WarningsAsErrors = true then
        Error env message badValueMessage (promotedClass type) s
      else warningEmitted env none message badValueMessage s := by
  by_cases hg : warningGated env type
  · rw [if_pos hg]
    unfold Warning
    rcases hg with hg | hg
    · rw [if_pos hg]
    · split_ifs <;> rfl
  · rw [if_neg hg]
    have h1 : ¬ (type = .W_EARLY ∧ env.LASTPASS ≤ env.pass) := fun h => hg (Or.inl h)
    have h2 : ¬ (type = .W_PASS3 ∧ env.pass < env.LASTPASS) := fun h => hg (Or.inr h)
    unfold Warning
    rw [if_neg h1, if_neg h2]
    split_ifs with hw
    · exact WarningImpl_promoted env none message badValueMessage type s hw
    · exact WarningImpl_not_promoted env none message badValueMessage type s (by simpa using hw)

theorem WarningById_some (env : Env) (id : String) (badValueMessage : Option String)
    (type : EWStatus) (s s1 : State) (h : WarningById env id badValueMessage type s = some s1) :
    s1 = s ∨
    (¬ warningGated env type ∧ suppressedById env id = some false ∧
      ∃ entry, find id s.w_texts = some entry ∧ entry.enabled = true ∧
        s1 = WarningImpl env (some id) entry.txt badValueMessage type s) := by
  unfold WarningById at h
  split_ifs at h with h1 h2
  · exact Or.inl (Option.some.inj h).symm
  · exact Or.inl (Option.some.inj h).symm
  · have hg : ¬ warningGated env type := by
      rintro (hg | hg)
      · exact h1 hg
      · exact h2 hg
    cases hs : suppressedById env id with
    | none =>
      rw [hs] at h
      cases h
    | some b =>
      rw [hs] at h
      cases b with
      | true => exact Or.inl (Option.some.inj h).symm
      | false =>
        simp only at h
        cases hf : find id s.w_texts with
        | none =>
          rw [hf] at h
          cases h
        | some entry =>
          rw [hf] at h
          simp only at h
          split_ifs at h with he
          · exact Or.inl (Option.some.inj h).symm
          · exact Or.inr ⟨hg, rfl, entry, rfl, by simpa using he, (Option.some.inj h).symm⟩

theorem Warning_cases (env : Env) (message : String) (badValueMessage : Option String)
    (type : EWStatus) (s : State) :
    Warning env message badValueMessage type s = s ∨
    (env.WarningsAsErrors = true ∧
      emittedAsError env (errorLines env message badValueMessage) s
        (Warning env message badValueMessage type s)) ∨
    (env.WarningsAsErrors = false ∧ ¬ warningGated env type ∧
      Warning env message badValueMessage type s
        = warningEmitted env none message badValueMessage s) := by
  rw [Warning_eq]
  split_ifs with hg hw
  · exact Or.inl rfl
  · rcases Error_cases env message badValueMessage (promotedClass type) s with h | h
    · exact Or.inl h
    · exact Or.inr (Or.inl ⟨hw, h⟩)
  · exact Or.inr (Or.inr ⟨by simpa using hw, hg, rfl⟩)

theorem WarningById_cases (env : Env) (id : String) (badValueMessage : Option String)
    (type : EWStatus) (s s1 : State) (h : WarningById env id badValueMessage type s = some s1) :
    s1 = s ∨
    ∃ entry, find id s.w_texts = some entry ∧
      ((env.WarningsAsErrors = true ∧
          emittedAsError env (errorLines env entry.txt badValueMessage) s s1) ∨
        (env.WarningsAsErrors = false ∧
          s1 = warningEmitted env (some id) entry.txt badValueMessage s)) := by
  rcases WarningById_some env id badValueMessage type s s1 h with h1 | ⟨-, -, entry, hf, -, h1⟩
  · exact Or.inl h1
  · cases hw : env.WarningsAsErrors with
    | true =>
      rw [WarningImpl_promoted env (some id) entry.txt badValueMessage type s hw] at h1
      rcases Error_cases env entry.txt badValueMessage (promotedClass type) s with h2 | h2
      · exact Or.inl (h1.trans h2)
      · rw [← h1] at h2
        exact Or.inr ⟨entry, hf, Or.inl ⟨rfl, h2⟩⟩
    | false =>
      rw [WarningImpl_not_promoted env (some id) entry.txt badValueMessage type s hw] at h1
      exact Or.inr ⟨entry, hf, Or.inr ⟨rfl, h1⟩⟩

/-- C14. For every state and every call of `Error`, `Warning` or `WarningById`, the call either
drops the diagnostic, and then the state is unchanged (both counters, the skip flag,
`PreviousErrorLine`, and nothing is written to the listing or to `stderr`), or it emits the
diagnostic, and then exactly one counter grows by exactly 1 while the other stays:
`ErrorCount` for an error and for a warning turned into an error, `WarningCount` for a warning
that is not turned into an error. So no counter ever decreases. -/
theorem counters_per_call (env : Env) (message id : String) (badValueMessage : Option String)
    (s : State) :
    (∀ type : EStatus,
      (Error env message badValueMessage type s = s ∨
        emittedAsError env (errorLines env message badValueMessage) s
          (Error env message badValueMessage type s)) ∧
      s.ErrorCount ≤ (Error env message badValueMessage type s).ErrorCount ∧
      s.WarningCount ≤ (Error env message badValueMessage type s).WarningCount) ∧
    (∀ type : EWStatus,
      (Warning env message badValueMessage type s = s ∨
        (env.WarningsAsErrors = true ∧
          emittedAsError env (errorLines env message badValueMessage) s
            (Warning env message badValueMessage type s)) ∨
        (env.WarningsAsErrors = false ∧
          emittedAsWarning env (warningLines env none message badValueMessage) s
            (Warning env message badValueMessage type s))) ∧
      s.ErrorCount ≤ (Warning env message badValueMessage type s).ErrorCount ∧
      s.WarningCount ≤ (Warning env message badValueMessage type s).WarningCount) ∧
    (∀ (type : EWStatus) (s1 : State), WarningById env id badValueMessage type s = some s1 →
      (s1 = s ∨
        ∃ entry, find id s.w_texts = some entry ∧
          ((env.WarningsAsErrors = true ∧
              emittedAsError env (errorLines env entry.txt badValueMessage) s s1) ∨
            (env.WarningsAsErrors = false ∧
              emittedAsWarning env (warningLines env (some id) entry.txt badValueMessage)
                s s1))) ∧
      s.ErrorCount ≤ s1.ErrorCount ∧ s.WarningCount ≤ s1.WarningCount) := by
  refine ⟨?_, ?_, ?_⟩
  · intro type
    rcases Error_cases env message badValueMessage type s with h | h
    · rw [h]
      exact ⟨Or.inl rfl, le_refl _, le_refl _⟩
    · exact ⟨Or.inr h, by rw [h.2.1]; omega, by rw [h.2.2]⟩
  · intro type
    rcases Warning_cases env message badValueMessage type s with h | ⟨hw, h⟩ | ⟨hw, -, h⟩
    · rw [h]
      exact ⟨Or.inl rfl, le_refl _, le_refl _⟩
    · exact ⟨Or.inr (Or.inl ⟨hw, h⟩), by rw [h.2.1]; omega, by rw [h.2.2]⟩
    · have hem := warningEmitted_emittedAsWarning env none message badValueMessage s
      rw [← h] at hem
      exact ⟨Or.inr (Or.inr ⟨hw, hem⟩), by rw [hem.2.2.1], by rw [hem.2.1]; omega⟩
  · intro type s1 h
    rcases WarningById_cases env id badValueMessage type s s1 h with
      h1 | ⟨entry, hf, ⟨hw, h1⟩ | ⟨hw, h1⟩⟩
    · rw [h1]
      exact ⟨Or.inl rfl, le_refl _, le_refl _⟩
    · exact ⟨Or.inr ⟨entry, hf, Or.inl ⟨hw, h1⟩⟩, by rw [h1.2.1]; omega, by rw [h1.2.2]⟩
    · have hem := warningEmitted_emittedAsWarning env (some id) entry.txt badValueMessage s
      rw [← h1] at hem
      exact ⟨Or.inr ⟨entry, hf, Or.inr ⟨hw, hem⟩⟩, by rw [hem.2.2.1], by rw [hem.2.1]; omega⟩

/-- Witness of C14: the warning `abs` reported by id in pass 3 of 3 from the initial state
raises `WarningCount` from 0 to 1 and leaves `ErrorCount` at 0. -/
theorem counters_per_call_witness :
    WarningById (sampleEnv 3 10) "abs" none .W_ALL initState
      = some (warningEmitted (sampleEnv 3 10) (some "abs")
          "the `abs` is now absolute value operator, if you are using it as label, please rename"
          none initState) ∧
    initState.ErrorCount ≤ (warningEmitted (sampleEnv 3 10) (some "abs")
      "the `abs` is now absolute value operator, if you are using it as label, please rename"
      none initState).ErrorCount ∧
    initState.WarningCount ≤ (warningEmitted (sampleEnv 3 10) (some "abs")
      "the `abs` is now absolute value operator, if you are using it as label, please rename"
      none initState).WarningCount ∧
    (warningEmitted (sampleEnv 3 10) (some "abs")
      "the `abs` is now absolute value operator, if you are using it as label, please rename"
      none initState).WarningCount = 1 :=
  ⟨by decide,
    ((counters_per_call (sampleEnv 3 10) "m" "abs" none initState).2.2 .W_ALL _
      (by decide)).2.1,
    ((counters_per_call (sampleEnv 3 10) "m" "abs" none initState).2.2 .W_ALL _
      (by decide)).2.2,
    by decide⟩

theorem errorDropped_congr (env : Env) (type : EStatus) (s s1 : State)
    (hskip : s1.IsSkipErrors = s.IsSkipErrors)
    (hprev : s1.PreviousErrorLine = s.PreviousErrorLine) :
    errorDropped env type s1 ↔ errorDropped env type s := by
  unfold errorDropped
  rw [hskip, hprev]

/-- C19. A warning that is not turned into an error (`WarningsAsErrors` off) does not touch the
bookkeeping of the errors: `Warning` and `WarningById` leave the skip flag,
`PreviousErrorLine` and `ErrorCount` as they are, whether the warning is emitted or dropped;
a later error is dropped after the warning exactly when it would have been dropped without it;
and a warning is never dropped for being on the line of the previous diagnostic: when a
warning is emitted, the same warning reported again in the same environment is emitted too, so
that `WarningCount` grows by 2. -/
theorem warning_leaves_error_state (env : Env) (message id : String)
    (badValueMessage : Option String) (type : EWStatus) (s : State)
    (hwae : env.WarningsAsErrors = false) :
    ((Warning env message badValueMessage type s).IsSkipErrors = s.IsSkipErrors ∧
      (Warning env message badValueMessage type s).PreviousErrorLine = s.PreviousErrorLine ∧
      (Warning env message badValueMessage type s).ErrorCount = s.ErrorCount) ∧
    (∀ s1, WarningById env id badValueMessage type s = some s1 →
      s1.IsSkipErrors = s.IsSkipErrors ∧ s1.PreviousErrorLine = s.PreviousErrorLine ∧
      s1.ErrorCount = s.ErrorCount) ∧
    (∀ (env1 : Env) (m1 : String) (d1 : Option String) (t1 : EStatus),
      (Error env1 m1 d1 t1 (Warning env message badValueMessage type s)
          = Warning env message badValueMessage type s
        ↔ Error env1 m1 d1 t1 s = s)) ∧
    (∀ s1, WarningById env id badValueMessage type s = some s1 →
      ∀ (env1 : Env) (m1 : String) (d1 : Option String) (t1 : EStatus),
        (Error env1 m1 d1 t1 s1 = s1 ↔ Error env1 m1 d1 t1 s = s)) ∧
    (Warning env message badValueMessage type s ≠ s →
      (Warning env message badValueMessage type
        (Warning env message badValueMessage type s)).WarningCount = s.WarningCount + 2) ∧
    (∀ s1, WarningById env id badValueMessage type s = some s1 → s1 ≠ s →
      ∃ s2, WarningById env id badValueMessage type s1 = some s2 ∧
        s2.WarningCount = s.WarningCount + 2) := by
  have hW : (Warning env message badValueMessage type s).IsSkipErrors = s.IsSkipErrors ∧
      (Warning env message badValueMessage type s).PreviousErrorLine = s.PreviousErrorLine ∧
      (Warning env message badValueMessage type s).ErrorCount = s.ErrorCount := by
    rcases Warning_cases env message badValueMessage type s with h | ⟨hw, -⟩ | ⟨-, -, h⟩
    · rw [h]
      exact ⟨rfl, rfl, rfl⟩
    · rw [hwae] at hw
      cases hw
    · rw [h]
      exact ⟨rfl, rfl, rfl⟩
  have hB : ∀ s1, WarningById env id badValueMessage type s = some s1 →
      s1.IsSkipErrors = s.IsSkipErrors ∧ s1.PreviousErrorLine = s.PreviousErrorLine ∧
      s1.ErrorCount = s.ErrorCount := by
    intro s1 h
    rcases WarningById_cases env id badValueMessage type s s1 h with
      h1 | ⟨entry, -, ⟨hw, -⟩ | ⟨-, h1⟩⟩
    · rw [h1]
      exact ⟨rfl, rfl, rfl⟩
    · rw [hwae] at hw
      cases hw
    · rw [h1]
      exact ⟨rfl, rfl, rfl⟩
  refine ⟨hW, hB, ?_, ?_, ?_, ?_⟩
  · intro env1 m1 d1 t1
    rw [Error_eq_self_iff, Error_eq_self_iff]
    exact errorDropped_congr env1 t1 s _ hW.1 hW.2.1
  · intro s1 h env1 m1 d1 t1
    rw [Error_eq_self_iff, Error_eq_self_iff]
    exact errorDropped_congr env1 t1 s s1 (hB s1 h).1 (hB s1 h).2.1
  · intro hne
    have hg : ¬ warningGated env type := by
      intro hg
      apply hne
      rw [Warning_eq, if_pos hg]
    have hw : ¬ env.WarningsAsErrors = true := by simp [hwae]
    have h1 : ∀ t, Warning env message badValueMessage type t
        = warningEmitted env none message badValueMessage t := by
      intro t
      rw [Warning_eq, if_neg hg, if_neg hw]
    rw [h1, h1]
    rfl
  · intro s1 h hne
    rcases WarningById_some env id badValueMessage type s s1 h with
      h1 | ⟨hg, hs, entry, hf, he, h1⟩
    · exact absurd h1 hne
    · rw [WarningImpl_not_promoted env (some id) entry.txt badValueMessage type s hwae] at h1
      have hf1 : find id s1.w_texts = some entry := by
        rw [h1, warningEmitted_w_texts]
        exact hf
      have h1g : ¬ (type = .W_EARLY ∧ env.LASTPASS ≤ env.pass) := fun hh => hg (Or.inl hh)
      have h2g : ¬ (type = .W_PASS3 ∧ env.pass < env.LASTPASS) := fun hh => hg (Or.inr hh)
      have he1 : ¬ entry.enabled = false := by simp [he]
      refine ⟨warningEmitted env (some id) entry.txt badValueMessage s1, ?_, ?_⟩
      · unfold WarningById
        rw [if_neg h1g, if_neg h2g, hs]
        simp only [hf1]
        rw [if_neg he1,
          WarningImpl_not_promoted env (some id) entry.txt badValueMessage type s1 hwae]
      · rw [h1]
        rfl

/-- Witness of C19: the warning "w", reported twice on line 10 in pass 3 of 3 after a
`SUPPRESS` error on that line, is written twice and leaves the skip flag set. -/
theorem warning_leaves_error_state_witness :
    (sampleEnv 3 10).WarningsAsErrors = false ∧
    Warning (sampleEnv 3 10) "w" none .W_ALL
        (Error (sampleEnv 3 10) "S" none .SUPPRESS initState)
      ≠ Error (sampleEnv 3 10) "S" none .SUPPRESS initState ∧
    (Warning (sampleEnv 3 10) "w" none .W_ALL
      (Warning (sampleEnv 3 10) "w" none .W_ALL
        (Error (sampleEnv 3 10) "S" none .SUPPRESS initState))).WarningCount
      = (Error (sampleEnv 3 10) "S" none .SUPPRESS initState).WarningCount + 2 ∧
    (Warning (sampleEnv 3 10) "w" none .W_ALL
      (Warning (sampleEnv 3 10) "w" none .W_ALL
        (Error (sampleEnv 3 10) "S" none .SUPPRESS initState))).cerr
      = ["main.asm(10): error: S\n", "main.asm(10): warning: w\n",
          "main.asm(10): warning: w\n"] ∧
    (Warning (sampleEnv 3 10) "w" none .W_ALL
      (Error (sampleEnv 3 10) "S" none .SUPPRESS initState)).IsSkipErrors = true :=
  ⟨rfl, by decide,
    (warning_leaves_error_state (sampleEnv 3 10) "w" "abs" none .W_ALL
      (Error (sampleEnv 3 10) "S" none .SUPPRESS initState) rfl).2.2.2.2.1 (by decide),
    by decide, by decide⟩

/-! ## The position text -/

theorem SPRINTF_fits (length : Nat) (text : String) (h : text.length < length) :
    SPRINTF length text = text := by
  unfold SPRINTF
  have hl : text.data.length ≤ length - 1 := by
    have : text.data.length = text.length := rfl
    omega
  rw [List.take_of_length_le hl]

/-- C17. Without script attribution (`LuaStartPos.line == 0`): both line buffers are empty when
`pass < 1`, or `LASTPASS < pass`, or the current file name is null. Otherwise, for texts that
fit the line buffer, the position text is `file(line): ` of `DefinitionPos` when its line is
not zero and of `CurSourcePos` when it is zero, and the second buffer holds
`curfile(curline): ^ emitted from here` with a newline exactly when the reported file name or
line differs from that of `CurSourcePos`; it is empty when `DefinitionPos.line` is zero. -/
theorem initErrorLine_no_script (env : Env) (hlua : env.LuaStartPos.line = 0) :
    (env.pass < 1 ∨ env.LASTPASS < env.pass ∨ env.CurSourcePos.filename = none →
      initErrorLine env = ("", "")) ∧
    (∀ curfile : String, 1 ≤ env.pass → env.pass ≤ env.LASTPASS →
      env.CurSourcePos.filename = some curfile →
      (env.DefinitionPos.line = 0 →
        (curfile ++ "(" ++ fmtD env.CurSourcePos.line ++ "): ").length < env.LINEMAX2 →
        initErrorLine env = (curfile ++ "(" ++ fmtD env.CurSourcePos.line ++ "): ", "")) ∧
      (∀ deffile : String, env.DefinitionPos.line ≠ 0 →
        env.DefinitionPos.filename = some deffile →
        (deffile ++ "(" ++ fmtD env.DefinitionPos.line ++ "): ").length < env.LINEMAX2 →
        (curfile ++ "(" ++ fmtD env.CurSourcePos.line
          ++ "): ^ emitted from here\n").length < env.LINEMAX2 →
        initErrorLine env =
          (deffile ++ "(" ++ fmtD env.DefinitionPos.line ++ "): ",
            if deffile ≠ curfile ∨ env.DefinitionPos.line ≠ env.CurSourcePos.line then
              curfile ++ "(" ++ fmtD env.CurSourcePos.line ++ "): ^ emitted from here\n"
            else ""))) := by
  constructor
  · intro h
    unfold initErrorLine
    rw [if_pos h]
  · intro curfile hp1 hp2 hcur
    have hgate : ¬ (env.pass < 1 ∨ env.LASTPASS < env.pass ∨ env.CurSourcePos.filename = none) := by
      rw [hcur]
      rintro (h | h | h)
      · omega
      · omega
      · cases h
    constructor
    · intro hdef hfit
      unfold initErrorLine
      rw [if_neg hgate]
      simp only [hlua, hdef, ne_eq, not_true_eq_false, if_false, hcur, fmtS, Option.getD_some,
        or_self, and_false]
      rw [SPRINTF_fits _ _ hfit]
    · intro deffile hdef hdeffile hfit1 hfit2
      unfold initErrorLine
      rw [if_neg hgate]
      simp only [hlua, hdef, ne_eq, not_true_eq_false, not_false_eq_true, if_false, if_true,
        hcur, hdeffile, fmtS, Option.getD_some, true_and, Option.some.injEq]
      rw [SPRINTF_fits _ _ hfit1, SPRINTF_fits _ _ hfit2]

/-- Witness of C17: a macro defined at `lib.asm(3)` and expanded at `main.asm(10)`, in pass 3
of 3. -/
theorem initErrorLine_no_script_witness :
    ({ sampleEnv 3 10 with DefinitionPos := ⟨some "lib.asm", 3⟩ } : Env).LuaStartPos.line = 0 ∧
    initErrorLine { sampleEnv 3 10 with DefinitionPos := ⟨some "lib.asm", 3⟩ }
      = ("lib.asm(3): ", "main.asm(10): ^ emitted from here\n") ∧
    initErrorLine (sampleEnv 3 10) = ("main.asm(10): ", "") ∧
    initErrorLine (sampleEnv 0 10) = ("", "") :=
  ⟨rfl,
    ((initErrorLine_no_script { sampleEnv 3 10 with DefinitionPos := ⟨some "lib.asm", 3⟩ }
      rfl).2 "main.asm" (by decide) (by decide) rfl).2 "lib.asm" (by decide) rfl (by decide)
      (by decide),
    ((initErrorLine_no_script (sampleEnv 3 10) rfl).2 "main.asm" (by decide) (by decide)
      rfl).1 rfl (by decide),
    (initErrorLine_no_script (sampleEnv 0 10) rfl).1 (Or.inl (by decide))⟩

theorem luaWalk_standalone (luaStartLine : Int) (f : LuaFrame) (outer : List LuaFrame)
    (hf : f.short_src ≠ "[string \"script\"]") :
    ∀ (inner : List LuaFrame) (errorPos : TextFilePos) (enabled : Bool),
      (∀ g ∈ inner, g.short_src = "[string \"script\"]") →
      luaWalk luaStartLine (inner ++ f :: outer) errorPos enabled
        = ({ filename := some f.short_src, line := f.currentline }, true) := by
  intro inner
  induction inner with
  | nil =>
    intro errorPos enabled _
    simp only [List.nil_append, luaWalk]
    rw [if_pos hf]
  | cons g rest ih =>
    intro errorPos enabled hin
    have hg : ¬ g.short_src ≠ "[string \"script\"]" := by
      simp [hin g (List.mem_cons_self g rest)]
    simp only [List.cons_append, luaWalk]
    rw [if_neg hg]
    exact ih _ _ (fun x hx => hin x (List.mem_cons_of_mem g hx))

theorem luaWalk_inline (luaStartLine : Int) :
    ∀ (frames : List LuaFrame) (hne : frames ≠ []) (errorPos : TextFilePos) (enabled : Bool),
      (∀ g ∈ frames, g.short_src = "[string \"script\"]") →
      luaWalk luaStartLine frames errorPos enabled
        = ({ filename := errorPos.filename,
             line := luaStartLine + (frames.getLast hne).currentline }, enabled) := by
  intro frames
  induction frames with
  | nil =>
    intro hne
    exact absurd rfl hne
  | cons g rest ih =>
    intro hne errorPos enabled hin
    have hg : ¬ g.short_src ≠ "[string \"script\"]" := by
      simp [hin g (List.mem_cons_self g rest)]
    simp only [luaWalk]
    rw [if_neg hg]
    cases rest with
    | nil => rfl
    | cons g1 rest1 =>
      rw [ih (List.cons_ne_nil g1 rest1) _ _ (fun x hx => hin x (List.mem_cons_of_mem g hx))]
      rfl

/-- C18. For a diagnostic attributed to a script, with `luaStack` the frames from level 1
outwards: when a frame is not an inlined script (its `short_src` differs from
`[string "script"]`), the reported position is the file and line of the innermost such frame
and the flag `isEmittedMsgEnabled` is true whatever `listmacro` is; when all frames are
inlined and there is at least one, the reported file is that of `LuaStartPos` and the reported
line is `LuaStartPos.line` plus the current line of the outermost frame; without frames the
reported position is `LuaStartPos`; in the last two cases the flag is true exactly when
`0 < listmacro`. `initErrorLine` formats this position and uses this flag. -/
theorem script_position (env : Env) :
    (∀ (inner : List LuaFrame) (f : LuaFrame) (outer : List LuaFrame),
      env.luaStack = inner ++ f :: outer →
      (∀ g ∈ inner, g.short_src = "[string \"script\"]") →
      f.short_src ≠ "[string \"script\"]" →
      scriptErrorPos env = ({ filename := some f.short_src, line := f.currentline }, true)) ∧
    (∀ hne : env.luaStack ≠ [],
      (∀ g ∈ env.luaStack, g.short_src = "[string \"script\"]") →
      scriptErrorPos env
        = ({ filename := env.LuaStartPos.filename,
             line := env.LuaStartPos.line + (env.luaStack.getLast hne).currentline },
            decide (0 < Env.listmacro env))) ∧
    (env.luaStack = [] →
      scriptErrorPos env = (env.LuaStartPos, decide (0 < Env.listmacro env))) ∧
    (env.LuaStartPos.line ≠ 0 →
      ¬ (env.pass < 1 ∨ env.LASTPASS < env.pass ∨ env.CurSourcePos.filename = none) →
      initErrorLine env =
        (SPRINTF env.LINEMAX2
            (fmtS (scriptErrorPos env).1.filename ++ "(" ++ fmtD (scriptErrorPos env).1.line
              ++ "): "),
          if (scriptErrorPos env).2 = true ∧
              ((scriptErrorPos env).1.filename ≠ env.CurSourcePos.filename ∨
                (scriptErrorPos env).1.line ≠ env.CurSourcePos.line)
          then
            SPRINTF env.LINEMAX2
              (fmtS env.CurSourcePos.filename ++ "(" ++ fmtD env.CurSourcePos.line
                ++ "): ^ emitted from here\n")
          else "")) := by
  refine ⟨?_, ?_, ?_, ?_⟩
  · intro inner f outer hstack hin hf
    unfold scriptErrorPos
    rw [hstack]
    exact luaWalk_standalone _ f outer hf inner _ _ hin
  · intro hne hin
    unfold scriptErrorPos
    exact luaWalk_inline _ env.luaStack hne _ _ hin
  · intro h
    unfold scriptErrorPos
    rw [h]
    rfl
  · intro hlua hgate
    unfold initErrorLine scriptErrorPos
    rw [if_neg hgate]
    simp only [hlua, ne_eq, not_false_eq_true, if_true]

/-- Witness of C18: an inlined script started at `main.asm(20)` calls, from its line 4, a
function of the file `lib.lua` that reports at its line 7; without the frame of `lib.lua` the
position is `main.asm(24)`. -/
theorem script_position_witness :
    scriptErrorPos
        { sampleEnv 3 10 with
          LuaStartPos := ⟨some "main.asm", 20⟩
          luaStack := [⟨"[string \"script\"]", 2⟩, ⟨"lib.lua", 7⟩, ⟨"[string \"script\"]", 4⟩] }
      = (⟨some "lib.lua", 7⟩, true) ∧
    scriptErrorPos
        { sampleEnv 3 10 with
          LuaStartPos := ⟨some "main.asm", 20⟩
          luaStack := [⟨"[string \"script\"]", 2⟩, ⟨"[string \"script\"]", 4⟩] }
      = (⟨some "main.asm", 24⟩, false) ∧
    initErrorLine
        { sampleEnv 3 10 with
          LuaStartPos := ⟨some "main.asm", 20⟩
          luaStack := [⟨"[string \"script\"]", 2⟩, ⟨"lib.lua", 7⟩, ⟨"[string \"script\"]", 4⟩] }
      = ("lib.lua(7): ", "main.asm(10): ^ emitted from here\n") ∧
    initErrorLine
        { sampleEnv 3 10 with
          LuaStartPos := ⟨some "main.asm", 20⟩
          luaStack := [⟨"[string \"script\"]", 2⟩, ⟨"[string \"script\"]", 4⟩] }
      = ("main.asm(24): ", "") :=
  ⟨(script_position
      { sampleEnv 3 10 with
        LuaStartPos := ⟨some "main.asm", 20⟩
        luaStack := [⟨"[string \"script\"]", 2⟩, ⟨"lib.lua", 7⟩, ⟨"[string \"script\"]", 4⟩] }).1
      [⟨"[string \"script\"]", 2⟩] ⟨"lib.lua", 7⟩ [⟨"[string \"script\"]", 4⟩] rfl
      (by decide) (by decide),
    by decide, by decide, by decide⟩

/-! ## The text of a diagnostic -/

theorem STRCAT_fits (dst src : String) (n : Nat) (h : dst.length + src.length ≤ n) :
    STRCAT dst n src = dst ++ src := by
  unfold STRCAT
  apply String.ext
  have hl : (dst.data ++ src.data).length ≤ n := by
    rw [List.length_append]
    exact h
  rw [List.take_of_length_le hl, String.data_append]

theorem appendMessage_fits (env : Env) (line message : String)
    (badValueMessage : Option String) (hlua : env.LuaStartPos.line = 0)
    (hfit : (line ++ message ++ detailText badValueMessage).length < env.LINEMAX2 - 1) :
    appendMessage env line message badValueMessage
      = withEol (line ++ message ++ detailText badValueMessage) := by
  unfold appendMessage withEol
  simp only [hlua, ne_eq, not_true_eq_false, if_false]
  cases badValueMessage with
  | none =>
    simp only [detailText, String.length_append, String.append_empty] at hfit ⊢
    rw [STRCAT_fits line message _ (by omega)]
    split_ifs
    · rfl
    · rw [STRCAT_fits _ _ _ (by
        rw [String.length_append]
        have : ("\n" : String).length = 1 := rfl
        omega)]
  | some bad =>
    simp only [detailText, String.length_append] at hfit ⊢
    have h2 : (": " : String).length = 2 := rfl
    rw [STRCAT_fits line message _ (by omega),
      STRCAT_fits _ ": " _ (by rw [String.length_append]; omega),
      STRCAT_fits _ bad _ (by rw [String.length_append, String.length_append]; omega)]
    have hassoc : line ++ message ++ ": " ++ bad = line ++ message ++ (": " ++ bad) := by
      rw [String.append_assoc]
    rw [hassoc]
    split_ifs
    · rfl
    · rw [STRCAT_fits _ _ _ (by
        rw [String.length_append, String.length_append, String.length_append]
        have : ("\n" : String).length = 1 := rfl
        omega)]

/-- The text of an error that is not attributed to a script and fits the line buffer: the
position text, `error: `, the message, the bad value behind `: ` when there is one, and a
newline when the text so far contains no newline. -/
theorem errorLines_text (env : Env) (message : String) (badValueMessage : Option String)
    (hlua : env.LuaStartPos.line = 0)
    (hfit : ((initErrorLine env).1 ++ "error: " ++ message
      ++ detailText badValueMessage).length < env.LINEMAX2 - 1) :
    (errorLines env message badValueMessage).1
      = withEol ((initErrorLine env).1 ++ "error: " ++ message ++ detailText badValueMessage) := by
  unfold errorLines
  simp only
  have h1 : STRCAT (initErrorLine env).1 (env.LINEMAX2 - 1) "error: "
      = (initErrorLine env).1 ++ "error: " := by
    apply STRCAT_fits
    simp only [String.length_append] at hfit ⊢
    omega
  rw [h1]
  exact appendMessage_fits env _ message badValueMessage hlua hfit

/-- The text of a warning that is not attributed to a script and fits the line buffer: the
position text, `warning: ` or `warning[id]: `, the message, the bad value behind `: ` when
there is one, and a newline when the text so far contains no newline. -/
theorem warningLines_text (env : Env) (message : String) (badValueMessage : Option String)
    (hlua : env.LuaStartPos.line = 0) :
    (((initErrorLine env).1 ++ "warning: " ++ message
        ++ detailText badValueMessage).length < env.LINEMAX2 - 1 →
      (warningLines env none message badValueMessage).1
        = withEol ((initErrorLine env).1 ++ "warning: " ++ message
            ++ detailText badValueMessage)) ∧
    (∀ id : String,
      ((initErrorLine env).1 ++ "warning[" ++ id ++ "]: " ++ message
        ++ detailText badValueMessage).length < env.LINEMAX2 - 1 →
      (warningLines env (some id) message badValueMessage).1
        = withEol ((initErrorLine env).1 ++ "warning[" ++ id ++ "]: " ++ message
            ++ detailText badValueMessage)) := by
  constructor
  · intro hfit
    unfold warningLines
    simp only
    have h1 : STRCAT (initErrorLine env).1 (env.LINEMAX2 - 1) "warning: "
        = (initErrorLine env).1 ++ "warning: " := by
      apply STRCAT_fits
      simp only [String.length_append] at hfit ⊢
      omega
    rw [h1]
    exact appendMessage_fits env _ message badValueMessage hlua hfit
  · intro id hfit
    unfold warningLines
    simp only
    have h1 : STRCAT (initErrorLine env).1 (env.LINEMAX2 - 1) "warning["
        = (initErrorLine env).1 ++ "warning[" := by
      apply STRCAT_fits
      simp only [String.length_append] at hfit ⊢
      omega
    have h2 : STRCAT ((initErrorLine env).1 ++ "warning[") (env.LINEMAX2 - 1) id
        = (initErrorLine env).1 ++ "warning[" ++ id := by
      apply STRCAT_fits
      simp only [String.length_append] at hfit ⊢
      omega
    have h3 : STRCAT ((initErrorLine env).1 ++ "warning[" ++ id) (env.LINEMAX2 - 1) "]: "
        = (initErrorLine env).1 ++ "warning[" ++ id ++ "]: " := by
      apply STRCAT_fits
      simp only [String.length_append] at hfit ⊢
      omega
    rw [h1, h2, h3]
    exact appendMessage_fits env _ message badValueMessage hlua hfit

/-- C15, the code at the failing input. The error with the message "a", a newline, "b", reported
on line 10 in pass 3 of 3 without script, fits the line buffer and is written as
`main.asm(10): error: a`, newline, `b`: the text ends in `b`, no newline is added, because line
122 looks for a newline anywhere in the buffer (`strchr`) where the claim asks whether the
text ends in one. The warnings behave the same (line 166). -/
theorem diagnostic_with_inner_newline :
    (errorLines (sampleEnv 3 10) "a\nb" none).1 = "main.asm(10): error: a\nb" ∧
    (errorLines (sampleEnv 3 10) "a\nb" none).1.data.getLast? = some 'b' ∧
    (errorLines (sampleEnv 3 10) "a\nb" none).1.length < (sampleEnv 3 10).LINEMAX2 - 1 ∧
    (Error (sampleEnv 3 10) "a\nb" none .ALL initState).cerr = ["main.asm(10): error: a\nb"] ∧
    (Warning (sampleEnv 3 10) "a\nb" none .W_ALL initState).cerr
      = ["main.asm(10): warning: a\nb"] ∧
    (errorLines (sampleEnv 3 10) "a\n" (some "b")).1 = "main.asm(10): error: a\n: b" := by
  decide

/-! ## `WarningById` with warnings turned into errors: the annotation -/

theorem strstr_first (id rest : List Char) :
    ∀ front : List Char,
      (∀ k, k < front.length → ¬ id <+: (front ++ (id ++ rest)).drop k) →
      strstr (front ++ (id ++ rest)) id = some (id ++ rest) := by
  intro front
  induction front with
  | nil =>
    intro _
    simp only [List.nil_append]
    cases h : id ++ rest with
    | nil =>
      have hid : id = [] := (List.append_eq_nil.mp h).1
      simp [strstr, hid]
    | cons c cs =>
      have hp : id.isPrefixOf (c :: cs) = true := by
        rw [ List.isPrefixOf_iff_prefix, ← h]
        exact List.prefix_append id rest
      simp only [strstr, hp, if_true]
  | cons c front1 ih =>
    intro hno
    have h0 : ¬ id.isPrefixOf (c :: (front1 ++ (id ++ rest))) = true := by
      rw [ List.isPrefixOf_iff_prefix]
      exact hno 0 (by simp)
    have hstep : strstr (c :: front1 ++ (id ++ rest)) id
        = strstr (front1 ++ (id ++ rest)) id := by
      show (if id.isPrefixOf (c :: (front1 ++ (id ++ rest))) = true
        then some (c :: (front1 ++ (id ++ rest)))
        else strstr (front1 ++ (id ++ rest)) id) = _
      rw [if_neg h0]
    rw [hstep]
    apply ih
    intro k hk
    have := hno (k + 1) (by simp only [List.length_cons]; omega)
    simpa using this

/-- When the first occurrence of the id in the annotation is directly followed by `-ok`,
`suppressedById(id)` is true. -/
theorem suppressedById_first_occurrence (env : Env) (id front back : String)
    (hid : id.data ≠ [])
    (hcomment : env.eolComment = some (front ++ id ++ "-ok" ++ back))
    (hfirst : ∀ k, k < front.length →
      ¬ id.data <+: (front ++ id ++ "-ok" ++ back).data.drop k) :
    suppressedById env id = some true := by
  have hdata : (front ++ id ++ "-ok" ++ back).data
      = front.data ++ (id.data ++ (['-', 'o', 'k'] ++ back.data)) := by
    simp only [String.data_append, List.append_assoc]
  have hlen : ¬ id.data.length = 0 := by
    rw [List.length_eq_zero]
    exact hid
  have hs : strstr (front.data ++ (id.data ++ (['-', 'o', 'k'] ++ back.data))) id.data
      = some (id.data ++ (['-', 'o', 'k'] ++ back.data)) := by
    apply strstr_first
    intro k hk
    rw [← hdata]
    exact hfirst k hk
  unfold suppressedById
  rw [hcomment]
  simp only [hlen, if_false, hdata, suppressedByIdLoop, hs]
  rw [List.drop_left]
  rfl

/-- C9 (as amended). With `WarningsAsErrors` set, the promotion happens in `WarningImpl`, after
the checks of the entry point `WarningById`. For an id of the catalog the call is the call of
`Error` with the text of the catalog and the mapped class when the id is enabled and
`suppressedById(id)` is false, in particular when the line has no annotation or its annotation
does not contain the id followed by `-ok`. The warning is dropped (the state is unchanged, no
error is reported) when the id is disabled in the catalog, and when `suppressedById(id)` is
true; that requires the annotation to contain the id followed by `-ok`, and it is the case
whenever the first occurrence of the id in the annotation is directly followed by `-ok`. -/
theorem warningById_as_error (env : Env) (id : String) (badValueMessage : Option String)
    (type : EWStatus) (s : State) (entry : WarningEntry)
    (hwae : env.WarningsAsErrors = true) (hfind : find id s.w_texts = some entry)
    (hid : id.data ≠ []) :
    (suppressedById env id = some false → entry.enabled = true →
      WarningById env id badValueMessage type s
        = some (Error env entry.txt badValueMessage (promotedClass type) s)) ∧
    ((∀ comment, env.eolComment = some comment → ¬ (id ++ "-ok").data <:+: comment.data) →
      entry.enabled = true →
      WarningById env id badValueMessage type s
        = some (Error env entry.txt badValueMessage (promotedClass type) s)) ∧
    (entry.enabled = false → WarningById env id badValueMessage type s = some s) ∧
    (suppressedById env id = some true →
      WarningById env id badValueMessage type s = some s) ∧
    (suppressedById env id = some true →
      ∃ comment, env.eolComment = some comment ∧ (id ++ "-ok").data <:+: comment.data) ∧
    (∀ front back : String, env.eolComment = some (front ++ id ++ "-ok" ++ back) →
      (∀ k, k < front.length → ¬ id.data <+: (front ++ id ++ "-ok" ++ back).data.drop k) →
      suppressedById env id = some true ∧
      WarningById env id badValueMessage type s = some s) := by
  obtain ⟨hT, -, hF⟩ := promotion_after_gating env id badValueMessage type s entry hwae hfind
  refine ⟨hF, ?_, ?_, hT, suppressedById_true env id, ?_⟩
  · intro hno he
    apply hF _ he
    obtain ⟨b, hb⟩ := suppressedById_isSome env id hid
    cases b with
    | false => exact hb
    | true =>
      obtain ⟨comment, hc, hin⟩ := suppressedById_true env id hb
      exact absurd hin (hno comment hc)
  · intro he
    exact WarningById_disabled env id badValueMessage type s entry hid hfind he
  · intro front back hc hfirst
    have hs := suppressedById_first_occurrence env id front back hid hc hfirst
    exact ⟨hs, hT hs⟩

/-- Witness of C9 (as amended): the enabled id `abs`, reported with `WarningsAsErrors` set on a
line without annotation, becomes the error with the text of the catalog; on a line with the
annotation `; abs-ok` it is dropped. -/
theorem warningById_as_error_witness :
    ({ sampleEnv 3 10 with WarningsAsErrors := true } : Env).WarningsAsErrors = true ∧
    find "abs" initState.w_texts
      = some ⟨true,
          "the `abs` is now absolute value operator, if you are using it as label, please rename",
          "Warn about parsing error of new abs operator (v1.18.0)."⟩ ∧
    ("abs" : String).data ≠ [] ∧
    suppressedById { sampleEnv 3 10 with WarningsAsErrors := true } "abs" = some false ∧
    WarningById { sampleEnv 3 10 with WarningsAsErrors := true } "abs" none .W_ALL initState
      = some (Error { sampleEnv 3 10 with WarningsAsErrors := true }
          "the `abs` is now absolute value operator, if you are using it as label, please rename"
          none .ALL initState) ∧
    (WarningById { sampleEnv 3 10 with WarningsAsErrors := true } "abs" none .W_ALL
        initState).map (fun t => t.cerr)
      = some ["main.asm(10): error: the `abs` is now absolute value operator, if you are using it as label, please rename\n"] ∧
    WarningById { sampleEnv 3 10 with WarningsAsErrors := true, eolComment := some "; abs-ok" }
        "abs" none .W_ALL initState
      = some initState :=
  ⟨rfl, by decide, by decide, by decide,
    (warningById_as_error { sampleEnv 3 10 with WarningsAsErrors := true } "abs" none .W_ALL
      initState
      ⟨true,
        "the `abs` is now absolute value operator, if you are using it as label, please rename",
        "Warn about parsing error of new abs operator (v1.18.0)."⟩
      rfl (by decide) (by decide)).1 (by decide) rfl,
    by decide,
    ((warningById_as_error
      { sampleEnv 3 10 with WarningsAsErrors := true, eolComment := some "; abs-ok" } "abs" none
      .W_ALL initState
      ⟨true,
        "the `abs` is now absolute value operator, if you are using it as label, please rename",
        "Warn about parsing error of new abs operator (v1.18.0)."⟩
      rfl (by decide) (by decide)).2.2.2.2.2 "; " "" rfl (by decide)).2⟩

end Sjasm
